import Mathlib

/-!
# Verification of the CondaRTS simulation engine

This file is a shallow embedding, in Lean 4, of the simulation core of the
CondaRTS real-time-strategy game (files `CondaRTS.py` and `src/*.py`), together
with theorems settling a list of claims about that core.

Modelling conventions, fixed once and used throughout:

* Python `float` quantities that are in fact integer-valued in the program
  (pygame `Rect` coordinates are stored as machine integers, and all positions
  are rect centers) are modelled as `Int`.
* Euclidean distance comparisons `dist(p, q) <= r` are modelled exactly as
  `dist2 p q <= r^2` on integers (squaring both sides of the float comparison;
  this is exact for the real-valued comparison the float code approximates).
* The genuinely fractional float state (the production timer, production times
  `180 * 0.9^n`, the AI income rate) is modelled by the exact fraction type `Q`
  below.  Exact rational arithmetic stands in for IEEE doubles; at the involved
  magnitudes the two agree on every comparison appearing in a claim.
* A normalized movement step `speed * dx / dist` is irrational; it is modelled
  by the integer step `(speed10 * dx).tdiv (10 * isqrt dist2)`, truncation
  toward zero, matching pygame's float-to-int truncation of rect coordinates.
  No claim depends on the exact step length.
* Python object references (`target_unit`, the harvester's `hq`, a projectile's
  target) are modelled as integer ids; `pygame.sprite.Sprite.kill()` removes an
  object from every group while the object itself persists, which is modelled
  by an `inRoster` flag: the rosters are the entities with `inRoster = true`,
  and a reference can still read the fields of a killed entity.
* `None` becomes `Option.none`.  pygame's falsy `Vector2(0, 0)` corner case is
  not modelled: positions of map-clamped rects are strictly positive, so a
  truthiness test on a position never sees `(0, 0)` in play.
* Purely cosmetic state (particles, sprite images, recoil/angle fields, health
  bars) and the event/input layer are outside the simulated tick and omitted;
  the AI's 18-step angular building-placement scan uses the integer floors of
  `120 * cos/sin(20k deg)`, which only shifts the (claim-irrelevant) snapped
  candidate tile.
* `random.*` draws are passed in explicitly as an `Rng` record, so every
  theorem is universally quantified over the random stream.
* The two places the per-tick code can raise (`Harvester.update` with no
  target while returning, and `min` over an empty iron-field list) are
  modelled with `Option`: `none` is the crashed tick.
-/

namespace CondaRTS

/-- Exact fractions with explicit numerator/denominator, standing in for the
Python floats of the production/economy code.  All operations are plain `Int`
arithmetic, so every comparison is decidable and kernel-reducible.  Every value
built by the embedding has a positive `den`. -/
structure Q where
  num : Int
  den : Int
  deriving DecidableEq, Repr

def Q.ofInt (n : Int) : Q := ⟨n, 1⟩

def Q.add (p q : Q) : Q := ⟨p.num * q.den + q.num * p.den, p.den * q.den⟩

def Q.sub (p q : Q) : Q := ⟨p.num * q.den - q.num * p.den, p.den * q.den⟩

def Q.mul (p q : Q) : Q := ⟨p.num * q.num, p.den * q.den⟩

/-- `p ≤ q` by cross multiplication (correct when both `den`s are positive). -/
def Q.le (p q : Q) : Prop := p.num * q.den ≤ q.num * p.den

/-- `p < q` by cross multiplication (correct when both `den`s are positive). -/
def Q.lt (p q : Q) : Prop := p.num * q.den < q.num * p.den

instance (p q : Q) : Decidable (Q.le p q) := by unfold Q.le; infer_instance

instance (p q : Q) : Decidable (Q.lt p q) := by unfold Q.lt; infer_instance

/-- `(9/10)^n`, the compounding production-speed factor. -/
def Q.ninePow : Nat → Q
  | 0 => ⟨1, 1⟩
  | n + 1 => Q.mul ⟨9, 10⟩ (Q.ninePow n)

def Q.zero : Q := ⟨0, 1⟩

def Q.one : Q := ⟨1, 1⟩

def Q.half : Q := ⟨1, 2⟩

/-! ## Teams, kinds and tuning constants (`src/constants.py` and class bodies) -/

inductive Team | gdi | nod
  deriving DecidableEq, Repr

inductive UnitKind | infantry | tank | harvester
  deriving DecidableEq, Repr

inductive BuildingKind | headquarters | barracks | warFactory | powerPlant | turret
  deriving DecidableEq, Repr

/-- Production queue entries are classes (types) of units or buildings. -/
inductive ProdItem
  | unit (k : UnitKind)
  | building (k : BuildingKind)
  deriving DecidableEq, Repr

def MAP_WIDTH : Int := 1600
def MAP_HEIGHT : Int := 800
def TILE_SIZE : Int := 32
def BUILDING_CONSTRUCTION_RANGE : Int := 160
def ARRIVAL_RADIUS : Int := 5
def HIT_RADIUS : Int := 3
def IRON_TRANSFER_RANGE : Int := 30
def PROJECTILE_SPEED10 : Int := 60
def BASE_POWER : Int := 300
def BASE_PRODUCTION_TIME : Int := 180
def UNIT_EXPLORATION_RADIUS : Int := 150
def BUILDING_EXPLORATION_RADIUS : Int := 200

/-- `ATTACK_RANGE` class constant per unit class. -/
def UnitKind.attackRange : UnitKind → Int
  | .infantry => 50
  | .tank => 200
  | .harvester => 50

/-- `UNIT_TARGETING_RANGE` (only Tank and Infantry define it). -/
def UnitKind.targetingRange : UnitKind → Int
  | .infantry => 200
  | .tank => 250
  | .harvester => 0

/-- `ATTACK_COOLDOWN_PERIOD` (Tank 50, Infantry 25; the Harvester instead has
an instance attribute `attack_cooldown = 30`). -/
def UnitKind.attackCooldownPeriod : UnitKind → Int
  | .infantry => 25
  | .tank => 50
  | .harvester => 30

def UnitKind.powerUsage : UnitKind → Int
  | .infantry => 5
  | .tank => 15
  | .harvester => 20

def UnitKind.cost : UnitKind → Int
  | .infantry => 100
  | .tank => 500
  | .harvester => 800

/-- Rect sizes of the unit sprites (`infantry 16x16`, `tank 30x20` base image,
`harvester 50x30`). -/
def UnitKind.size : UnitKind → Int × Int
  | .infantry => (16, 16)
  | .tank => (30, 20)
  | .harvester => (50, 30)

/-- Constructor health by kind and team (`Tank` and `Infantry` are stronger for
GDI). -/
def UnitKind.spawnHealth : UnitKind → Team → Int
  | .infantry, .gdi => 100
  | .infantry, .nod => 60
  | .tank, .gdi => 200
  | .tank, .nod => 120
  | .harvester, _ => 300

/-- Constructor speed, in tenths of a pixel per tick. -/
def UnitKind.speed10 : UnitKind → Team → Int
  | .infantry, .gdi => 35
  | .infantry, .nod => 40
  | .tank, .gdi => 25
  | .tank, .nod => 30
  | .harvester, _ => 25

/-- Constructor attack damage by kind and team. -/
def UnitKind.spawnDamage : UnitKind → Team → Int
  | .infantry, _ => 8
  | .tank, .gdi => 20
  | .tank, .nod => 15
  | .harvester, _ => 10

def BuildingKind.cost : BuildingKind → Int
  | .headquarters => 2000
  | .barracks => 500
  | .warFactory => 1000
  | .powerPlant => 300
  | .turret => 600

def BuildingKind.powerUsage : BuildingKind → Int
  | .headquarters => 0
  | .barracks => 25
  | .warFactory => 35
  | .powerPlant => 0
  | .turret => 25

def BuildingKind.powerOutput : BuildingKind → Int
  | .powerPlant => 100
  | _ => 0

def BuildingKind.size : BuildingKind → Int × Int
  | .headquarters => (80, 80)
  | .turret => (50, 50)
  | _ => (60, 60)

def BuildingKind.maxHealth : BuildingKind → Int
  | .headquarters => 1200
  | .barracks => 600
  | .warFactory => 800
  | .powerPlant => 500
  | .turret => 500

def ProdItem.cost : ProdItem → Int
  | .unit k => k.cost
  | .building k => k.cost

def CONSTRUCTION_TIME : Int := 50
def TURRET_ATTACK_RANGE : Int := 180
def TURRET_ATTACK_DAMAGE : Int := 15
def TURRET_ATTACK_COOLDOWN : Int := 25
def HARVESTER_CAPACITY : Int := 100

/-! ## Geometry (`src/geometry.py`, pygame `Rect` basics) -/

/-- Squared Euclidean distance between two points. -/
def dist2 (p q : Int × Int) : Int := (p.1 - q.1) ^ 2 + (p.2 - q.2) ^ 2

/-- `pygame.Rect.colliderect`: half-open overlap on both axes.  A rect is
`(x, y, w, h)` with `x, y` its top-left corner. -/
def rectsCollide (a b : Int × Int × Int × Int) : Prop :=
  a.1 < b.1 + b.2.2.1 ∧ b.1 < a.1 + a.2.2.1 ∧
  a.2.1 < b.2.1 + b.2.2.2 ∧ b.2.1 < a.2.1 + a.2.2.2

instance (a b : Int × Int × Int × Int) : Decidable (rectsCollide a b) := by
  unfold rectsCollide; infer_instance

/-- Boolean form of `rectsCollide`, used inside the executable code. -/
def rectsCollideB (a b : Int × Int × Int × Int) : Bool :=
  decide (rectsCollide a b)

/-- Fuel-bounded Newton iteration for the integer square root (structural, so
the kernel can evaluate it; 64 iterations suffice for any 64-bit input). -/
def isqrtIter (n : Nat) : Nat → Nat → Nat
  | 0, guess => guess
  | fuel + 1, guess =>
    let next := (guess + n / guess) / 2
    if next < guess then isqrtIter n fuel next else guess

def isqrtNat (n : Nat) : Nat :=
  if n ≤ 1 then n else isqrtIter n 64 (n / 2 + 1)

/-- Integer square root of the absolute value. -/
def isqrt (n : Int) : Int := Int.ofNat (isqrtNat n.toNat)

/-- One normalized movement step `speed * (dx, dy) / dist`, truncated toward
zero exactly as pygame truncates float rect coordinates.  `speed10` is the
speed in tenths. -/
def moveStep (speed10 : Int) (dx dy d2 : Int) : Int × Int :=
  let d := isqrt d2
  if d = 0 then (0, 0)
  else ((speed10 * dx).tdiv (10 * d), (speed10 * dy).tdiv (10 * d))

/-- `Rect.clamp_ip(Rect(0, 0, MAP_WIDTH, MAP_HEIGHT))` for a rect of size
`(w, h)`: clamp the top-left into the map. -/
def clampToMap (x y w h : Int) : Int × Int :=
  (max 0 (min x (MAP_WIDTH - w)), max 0 (min y (MAP_HEIGHT - h)))

/-- `snap_to_grid`: floor both coordinates to the containing tile corner
(Python `//` is floor division). -/
def snap_to_grid (p : Int × Int) : Int × Int :=
  ((p.1.fdiv TILE_SIZE) * TILE_SIZE, (p.2.fdiv TILE_SIZE) * TILE_SIZE)

/-! ## Entities -/

/-- Harvester finite-state machine states. -/
inductive HState | movingToField | harvesting | returningToHQ
  deriving DecidableEq, Repr

/-- A mobile unit (`GameObject` instance of class Infantry, Tank or Harvester).
`x, y` are the rect top-left; `w, h` its size; the position used by all
distance computations is the rect center.  Drawing-only fields (`image`,
`angle`, `recoil`, `selected`) are omitted. -/
structure GameUnit where
  id : Nat
  kind : UnitKind
  team : Team
  x : Int
  y : Int
  w : Int
  h : Int
  health : Int
  maxHealth : Int
  speed10 : Int
  attackDamage : Int
  cooldown : Int
  target : Option (Int × Int)
  targetUnit : Option Nat
  formationTarget : Option (Int × Int)
  underAttack : Bool
  inRoster : Bool
  -- Harvester payload:
  iron : Int
  hstate : HState
  targetField : Option Nat
  harvestTime : Int
  hqRef : Nat
  deriving DecidableEq, Repr

/-- Rect center, the `position` property. -/
def GameUnit.pos (u : GameUnit) : Int × Int := (u.x + u.w.fdiv 2, u.y + u.h.fdiv 2)

def GameUnit.rect (u : GameUnit) : Int × Int × Int × Int := (u.x, u.y, u.w, u.h)

/-- A building.  Every building carries the Headquarters payload (queue, iron,
power, pending building); it is unused for the other kinds, mirroring that
only `Headquarters.__init__` sets those attributes. -/
structure Building where
  id : Nat
  kind : BuildingKind
  team : Team
  x : Int
  y : Int
  w : Int
  h : Int
  health : Int
  maxHealth : Int
  constructionProgress : Int
  cooldown : Int
  targetUnit : Option Nat
  underAttack : Bool
  isExplored : Bool
  inRoster : Bool
  -- Headquarters payload:
  iron : Int
  queue : List ProdItem
  timer : Q
  pendingBuilding : Option BuildingKind
  pendingPos : Option (Int × Int)
  powerOutput : Int
  powerUsage : Int
  deriving DecidableEq, Repr

def Building.pos (b : Building) : Int × Int := (b.x + b.w.fdiv 2, b.y + b.h.fdiv 2)

def Building.rect (b : Building) : Int × Int × Int × Int := (b.x, b.y, b.w, b.h)

/-- A projectile (10x5 rect; `target_unit` is an object reference, modelled by
id; `particle_timer` drives cosmetic smoke only but is kept for fidelity). -/
structure Projectile where
  id : Nat
  team : Team
  x : Int
  y : Int
  targetUnit : Nat
  damage : Int
  particleTimer : Int
  inRoster : Bool
  deriving DecidableEq, Repr

def Projectile.pos (p : Projectile) : Int × Int := (p.x + 5, p.y + 2)

def Projectile.rect (p : Projectile) : Int × Int × Int × Int := (p.x, p.y, 10, 5)

/-- An iron field (40x40 rect at `x, y`). -/
structure IronField where
  id : Nat
  x : Int
  y : Int
  resources : Int
  regenTimer : Int
  deriving DecidableEq, Repr

def IronField.pos (f : IronField) : Int × Int := (f.x + 20, f.y + 20)

/-- The world state threaded through one tick: the sprite groups of
`CondaRTS.py` (`global_units`, `global_buildings`, `projectiles`,
`iron_fields`).  `nextId` supplies ids for spawned entities. -/
structure GameState where
  units : List GameUnit
  buildings : List Building
  projectiles : List Projectile
  fields : List IronField
  nextId : Nat
  deriving DecidableEq, Repr

/-! ## Object views and the mutation primitives

Python mutates shared objects through references.  The embedding looks an
entity up by id (ignoring `inRoster`, because a reference can still see a
killed object) and rewrites the matching entries of the rosters. -/

/-- What a reference can read off any game object: position, rect, team,
health, kind tags. -/
structure ObjView where
  id : Nat
  team : Team
  pos : Int × Int
  rect : Int × Int × Int × Int
  health : Int
  maxHealth : Int
  isUnit : Bool
  ukind : UnitKind
  bkind : BuildingKind
  deriving DecidableEq, Repr

def GameUnit.view (u : GameUnit) : ObjView :=
  ⟨u.id, u.team, u.pos, u.rect, u.health, u.maxHealth, true, u.kind, .headquarters⟩

def Building.view (b : Building) : ObjView :=
  ⟨b.id, b.team, b.pos, b.rect, b.health, b.maxHealth, false, .infantry, b.kind⟩

/-- Dereference an id: search units first, then buildings, disregarding
roster membership (Python references survive `kill()`). -/
def GameState.objView (s : GameState) (eid : Nat) : Option ObjView :=
  match s.units.find? (fun u => u.id == eid) with
  | some u => some u.view
  | none =>
    match s.buildings.find? (fun b => b.id == eid) with
    | some b => some b.view
    | none => none

/-- Whether the referenced object exists and has `health > 0` (the pervasive
`obj and obj.health > 0` guard). A dangling id counts as dead. -/
def GameState.refAlive (s : GameState) (eid : Nat) : Bool :=
  match s.objView eid with
  | some v => decide (0 < v.health)
  | none => false

/-- Rewrite every unit with the given id. -/
def GameState.mapUnit (s : GameState) (eid : Nat) (f : GameUnit → GameUnit) : GameState :=
  { s with units := s.units.map (fun u => if u.id = eid then f u else u) }

/-- Rewrite every building with the given id. -/
def GameState.mapBuilding (s : GameState) (eid : Nat) (f : Building → Building) :
    GameState :=
  { s with buildings := s.buildings.map (fun b => if b.id = eid then f b else b) }

/-- Rewrite every projectile with the given id. -/
def GameState.mapProjectile (s : GameState) (eid : Nat) (f : Projectile → Projectile) :
    GameState :=
  { s with projectiles := s.projectiles.map (fun p => if p.id = eid then f p else p) }

/-- `target.health -= dmg; [target.under_attack = True;] if target.health <= 0:
target.kill()` — the single damage-application shape used by melee attacks and
projectile impacts.  `markUA` is false only for the harvester's melee attack,
which does not set `under_attack`. -/
def GameState.hitEntity (s : GameState) (eid : Nat) (dmg : Int) (markUA : Bool) :
    GameState :=
  { s with
    units := s.units.map (fun u =>
      if u.id = eid then
        let h := u.health - dmg
        { u with health := h, underAttack := markUA || u.underAttack,
                 inRoster := u.inRoster && !(h ≤ 0) }
      else u)
    buildings := s.buildings.map (fun b =>
      if b.id = eid then
        let h := b.health - dmg
        { b with health := h, underAttack := markUA || b.underAttack,
                 inRoster := b.inRoster && !(h ≤ 0) }
      else b) }

/-- `sprite.kill()` on a unit. -/
def GameState.killUnit (s : GameState) (eid : Nat) : GameState :=
  s.mapUnit eid (fun u => { u with inRoster := false })

/-- `sprite.kill()` on a projectile. -/
def GameState.killProjectile (s : GameState) (eid : Nat) : GameState :=
  s.mapProjectile eid (fun p => { p with inRoster := false })

/-- The members of `global_units` (units currently in the group). -/
def GameState.roster (s : GameState) : List GameUnit :=
  s.units.filter (·.inRoster)

/-- The members of `global_buildings`. -/
def GameState.brosterAll (s : GameState) : List Building :=
  s.buildings.filter (·.inRoster)

/-- Team-restricted unit group (`player_units` / `ai_units`). -/
def GameState.teamRoster (s : GameState) (t : Team) : List GameUnit :=
  s.units.filter (fun u => u.inRoster && u.team = t)

/-- Team-restricted building list (list comprehensions over
`global_buildings`). -/
def GameState.teamBuildings (s : GameState) (t : Team) : List Building :=
  s.buildings.filter (fun b => b.inRoster && b.team = t)

def Team.enemy : Team → Team
  | .gdi => .nod
  | .nod => .gdi

/-! ## Per-unit update (`src/game_object.py`, `tank.py`, `infantry.py`,
`harvester.py`) -/

/-- Move toward a point: step if farther than the arrival radius, then clamp
to the map (the clamp runs in every movement branch). -/
def GameUnit.stepToward (u : GameUnit) (t : Int × Int) : GameUnit :=
  let d2 := dist2 u.pos t
  let u1 :=
    if d2 > ARRIVAL_RADIUS ^ 2 then
      let st := moveStep u.speed10 (t.1 - u.pos.1) (t.2 - u.pos.2) d2
      { u with x := u.x + st.1, y := u.y + st.2 }
    else u
  let c := clampToMap u1.x u1.y u1.w u1.h
  { u1 with x := c.1, y := c.2 }

/-- `GameObject.move_toward`: pursue a living `target_unit` while outside
attack range, else follow the formation target, else a plain move target. -/
def move_toward (s : GameState) (u : GameUnit) : GameUnit :=
  let pursuing :=
    u.target.isSome &&
      (match u.targetUnit with
       | some tid => s.refAlive tid
       | none => false)
  if pursuing then
    match u.target with
    | some t =>
      if dist2 u.pos t > u.kind.attackRange ^ 2 then u.stepToward t
      else { u with target := none }
    | none => u
  else
    match u.formationTarget with
    | some f => u.stepToward f
    | none =>
      match u.target with
      | some t => u.stepToward t
      | none => u

/-- `GameObject.update`: move (every unit class is mobile), then tick the
attack cooldown down toward zero. -/
def gameObjectUpd (s : GameState) (u : GameUnit) : GameUnit :=
  let u1 := move_toward s u
  if u1.cooldown > 0 then { u1 with cooldown := u1.cooldown - 1 } else u1

/-- The shared tail of `Tank.update` and `Infantry.update`: while the
`target_unit` is alive, re-aim at its current position if it is within the
class's `UNIT_TARGETING_RANGE`, otherwise drop both `target` and
`target_unit`. -/
def tankInfRetarget (s : GameState) (u : GameUnit) : GameUnit :=
  match u.targetUnit with
  | some tid =>
    match s.objView tid with
    | some v =>
      if 0 < v.health then
        if dist2 u.pos v.pos ≤ u.kind.targetingRange ^ 2 then
          { u with target := some v.pos }
        else
          { u with target := none, targetUnit := none }
      else u
    | none => u
  | none => u

/-- Replace every unit with this id by `v`. -/
def GameState.setUnit (s : GameState) (uid : Nat) (v : GameUnit) : GameState :=
  s.mapUnit uid (fun _ => v)

def GameState.mapField (s : GameState) (fid : Nat) (f : IronField → IronField) :
    GameState :=
  { s with fields := s.fields.map (fun g => if g.id = fid then f g else g) }

/-- One step of the harvester's defensive scan over the enemy unit group. -/
def harvScanStep (h : GameUnit) (best : Option (GameUnit × Int)) (u : GameUnit) :
    Option (GameUnit × Int) :=
  if u.kind == .infantry && decide (0 < u.health) then
    let d2 := dist2 h.pos u.pos
    if decide (d2 < UnitKind.attackRange .harvester ^ 2) &&
        (match best with
         | none => true
         | some pr => decide (d2 < pr.2)) then
      some (u, d2)
    else best
  else best

/-- The harvester's defensive scan: the first-found nearest living enemy
Infantry strictly within `ATTACK_RANGE` (vs the enemy team's unit group). -/
def harvScan (s : GameState) (h : GameUnit) : Option (GameUnit × Int) :=
  (s.teamRoster h.team.enemy).foldl (harvScanStep h) none

/-- Python `min(fields, key=distance)`: the first field of minimal distance,
`none` on the empty list (where Python raises `ValueError`). -/
def closestField (p : Int × Int) (fs : List IronField) : Option IronField :=
  fs.foldl
    (fun best f =>
      match best with
      | none => some f
      | some b => if dist2 p f.pos < dist2 p b.pos then some f else some b)
    none

/-- The harvester melee attack (`Harvester.update`, first block): when the
cooldown is at zero and the scan finds a victim, damage it (`under_attack` is
not set here), kill it at `health <= 0`, and reset the cooldown to 30. -/
def harvesterCombat (s : GameState) (uid : Nat) : GameState :=
  match s.units.find? (fun u => u.id == uid) with
  | none => s
  | some u =>
    if u.cooldown = 0 then
      match harvScan s u with
      | some pr =>
        (s.hitEntity pr.1.id u.attackDamage false).mapUnit uid
          (fun w => { w with cooldown := UnitKind.attackCooldownPeriod .harvester })
      | none => s
    else s

/-- The harvester economy state machine (`Harvester.update`, tail).  `none`
models the two `raise` statements / the `min` over an empty field list. -/
def harvesterEcon (s : GameState) (uid : Nat) : Option GameState :=
  match s.units.find? (fun u => u.id == uid) with
  | none => some s
  | some u =>
    match u.hstate with
    | .movingToField =>
      let needNew :=
        match u.targetField with
        | none => true
        | some fid =>
          match s.fields.find? (fun (f : IronField) => f.id == fid) with
          | some f => decide (f.resources ≤ 0)
          | none => true
      let chosen : Option (Option IronField) :=
        if needNew then
          let rich := s.fields.filter (fun (f : IronField) => f.resources ≥ 1000)
          if rich.isEmpty then
            match closestField u.pos s.fields with
            | some f => some (some f)
            | none => none
          else some (closestField u.pos rich)
        else
          some (match u.targetField with
                | some fid => s.fields.find? (fun f => f.id == fid)
                | none => none)
      match chosen with
      | none => none
      | some ofld =>
        match ofld with
        | some fld =>
          let u1 := { u with targetField := some fld.id, target := some fld.pos }
          let u2 :=
            if dist2 u1.pos fld.pos < IRON_TRANSFER_RANGE ^ 2 then
              { u1 with hstate := .harvesting, target := none, harvestTime := 40 }
            else u1
          some (s.setUnit uid u2)
        | none => some s
    | .harvesting =>
      if u.harvestTime > 0 then
        some (s.setUnit uid { u with harvestTime := u.harvestTime - 1 })
      else
        match u.targetField with
        | none => none
        | some fid =>
          match s.fields.find? (fun f => f.id == fid) with
          | none => none
          | some fld =>
            match s.objView u.hqRef with
            | none => none
            | some hqv =>
              let harvested := min fld.resources HARVESTER_CAPACITY
              some (((s.mapField fid
                  (fun g => { g with resources := g.resources - harvested })).setUnit
                    uid
                    { u with iron := u.iron + harvested,
                             hstate := .returningToHQ,
                             target := some hqv.pos }))
    | .returningToHQ =>
      match u.target with
      | none => none
      | some t =>
        if dist2 u.pos t < IRON_TRANSFER_RANGE ^ 2 then
          some ((s.mapBuilding u.hqRef
              (fun b => { b with iron := b.iron + u.iron })).setUnit uid
                { u with iron := 0, hstate := .movingToField, target := none })
        else some s

/-- One unit's update, dispatched on class as the main loop does. -/
def unitStep (s : GameState) (uid : Nat) : Option GameState :=
  match s.units.find? (fun u => u.id == uid) with
  | none => some s
  | some u =>
    match u.kind with
    | .harvester =>
      let s1 := s.setUnit uid (gameObjectUpd s u)
      harvesterEcon (harvesterCombat s1 uid) uid
    | _ => some (s.setUnit uid (tankInfRetarget s (gameObjectUpd s u)))

/-- `for unit in global_units: unit.update(...)` over a snapshot of the
group. -/
def unitsPhase (s : GameState) : Option GameState :=
  (s.roster.map (·.id)).foldlM unitStep s

/-- `IronField.update`: regenerate 15 resources (capped at 5000) every 500
ticks. -/
def ironFieldUpd (f : IronField) : IronField :=
  if f.regenTimer > 0 then { f with regenTimer := f.regenTimer - 1 }
  else { f with resources := min 5000 (f.resources + 15), regenTimer := 500 }

def fieldsPhase (s : GameState) : GameState :=
  { s with fields := s.fields.map ironFieldUpd }

/-! ## Buildings (`building.py`, `headquarters.py`, `turret.py`) -/

def GameState.setBuilding (s : GameState) (bid : Nat) (v : Building) : GameState :=
  s.mapBuilding bid (fun _ => v)

/-- `Building.update` minus the production/turret tails: advance construction,
run `GameObject.update` (buildings are immobile, so only the cooldown tick),
and report whether the zero-health check fires (`kill()`). -/
def building_base_update (b : Building) : Building × Bool :=
  let b1 :=
    if b.constructionProgress < CONSTRUCTION_TIME then
      { b with constructionProgress := b.constructionProgress + 1 }
    else b
  let b2 := if b1.cooldown > 0 then { b1 with cooldown := b1.cooldown - 1 } else b1
  (b2, decide (b2.health ≤ 0))

/-- Python float-truthiness of the production timer: `not self.production_timer`
is true exactly at `0.0`. -/
def Q.isZero (q : Q) : Bool := q.num == 0

/-- `self.production_timer -= 1 if self.has_enough_power else 0.5`. -/
def hqTimerDecrement (powered : Bool) : Q := if powered then Q.one else Q.half

/-- `Headquarters._power_output`. -/
def hq_power_output (fb : List Building) : Int :=
  BASE_POWER +
    (fb.foldl
      (fun a b =>
        a + (if b.kind == .powerPlant && decide (0 < b.health) then
              BuildingKind.powerOutput .powerPlant else 0))
      0)

/-- `Headquarters._power_usage` (the headquarters itself is excluded). -/
def hq_power_usage (selfId : Nat) (fu : List GameUnit) (fb : List Building) : Int :=
  (fu.foldl (fun a u => a + u.kind.powerUsage) 0) +
    (fb.foldl (fun a b => a + (if b.id == selfId then 0 else b.kind.powerUsage)) 0)

/-- `Headquarters.get_production_time`: the base time shrunk by `0.9` per
living support building of the right class. -/
def get_production_time (fb : List Building) (item : ProdItem) : Q :=
  let living : BuildingKind → Nat := fun k =>
    (fb.filter (fun b => b.kind == k && decide (0 < b.health))).length
  match item with
  | .unit .infantry => (Q.ofInt BASE_PRODUCTION_TIME).mul (Q.ninePow (living .barracks))
  | .unit .tank => (Q.ofInt BASE_PRODUCTION_TIME).mul (Q.ninePow (living .warFactory))
  | .unit .harvester =>
    (Q.ofInt BASE_PRODUCTION_TIME).mul (Q.ninePow (living .warFactory))
  | .building _ => Q.ofInt BASE_PRODUCTION_TIME

/-- `calculate_formation_positions(center, target=None, num_units=1,
direction=0)`: one position, offset `((0-2)*20, (0-1.5)*20)` rotated by 0. -/
def formationPosition0 (center : Int × Int) : Int × Int :=
  (center.1 - 40, center.2 - 30)

/-- A freshly constructed unit with its rect center at `center`
(`unit.rect.center = pos` immediately after construction). -/
def mkUnit (uid : Nat) (k : UnitKind) (t : Team) (center : Int × Int) (hqRef : Nat) :
    GameUnit :=
  let sz := k.size
  { id := uid, kind := k, team := t,
    x := center.1 - sz.1.fdiv 2, y := center.2 - sz.2.fdiv 2, w := sz.1, h := sz.2,
    health := k.spawnHealth t, maxHealth := k.spawnHealth t,
    speed10 := k.speed10 t, attackDamage := k.spawnDamage t, cooldown := 0,
    target := none, targetUnit := none,
    formationTarget := some center,
    underAttack := false, inRoster := true,
    iron := 0, hstate := .movingToField, targetField := none, harvestTime := 40,
    hqRef := hqRef }

/-- Python `min(buildings, key=lambda b: hq.distance_to(b.position))`: first
building of minimal distance. -/
def closestBuilding (p : Int × Int) (bs : List Building) : Option Building :=
  bs.foldl
    (fun (best : Option Building) b =>
      match best with
      | none => some b
      | some c => if dist2 p b.pos < dist2 p c.pos then some b else some c)
    none

/-- The production tail of `Headquarters.update`: power accounting, timer
start, timer decrement, and completion (pending building or unit spawn).  The
early `return` when no support building is alive pops the item and skips the
timer reset. -/
def hqPowered (s : GameState) (hq : Building) : Bool :=
  decide (hq_power_usage hq.id (s.teamRoster hq.team) (s.teamBuildings hq.team) ≤
    hq_power_output (s.teamBuildings hq.team))

def hq_production (s : GameState) (hq : Building) : GameState :=
  let fb := s.teamBuildings hq.team
  let po := hq_power_output fb
  let pu := hq_power_usage hq.id (s.teamRoster hq.team) fb
  let powered := hqPowered s hq
  let hq1 := { hq with powerOutput := po, powerUsage := pu }
  let hq2 :=
    match hq1.queue with
    | item :: _ =>
      if hq1.timer.isZero && powered then
        { hq1 with timer := get_production_time fb item }
      else hq1
    | [] => hq1
  match hq2.queue with
  | [] => s.setBuilding hq.id hq2
  | item :: rest =>
    let t1 := hq2.timer.sub (hqTimerDecrement powered)
    let hq3 := { hq2 with timer := t1 }
    if Q.le t1 Q.zero then
      let resetTimer : List ProdItem → Q := fun q =>
        match q with
        | next :: _ => if powered then get_production_time fb next else Q.zero
        | [] => Q.zero
      match item with
      | .building bk =>
        s.setBuilding hq.id
          { hq3 with queue := rest, pendingBuilding := some bk, pendingPos := none,
                     timer := resetTimer rest }
      | .unit uk =>
        let support : Option (List Building) :=
          match uk with
          | .infantry =>
            some (fb.filter (fun b => b.kind == .barracks && decide (0 < b.health)))
          | .tank =>
            some (fb.filter (fun b => b.kind == .warFactory && decide (0 < b.health)))
          | .harvester =>
            some (fb.filter (fun b => b.kind == .warFactory && decide (0 < b.health)))
        match support with
        | none => s.setBuilding hq.id hq3
        | some cand =>
          match closestBuilding hq3.pos cand with
          | none =>
            -- `if not barracks: return` — the popped item is dropped and the
            -- timer reset is skipped.
            s.setBuilding hq.id { hq3 with queue := rest }
          | some spawnB =>
            let spawnPos : Int × Int := (spawnB.x + spawnB.w + 20, spawnB.pos.2)
            let fpos := formationPosition0 spawnPos
            let newU := mkUnit s.nextId uk hq.team fpos hq.id
            let s1 := { s with units := s.units ++ [newU], nextId := s.nextId + 1 }
            s1.setBuilding hq.id { hq3 with queue := rest, timer := resetTimer rest }
    else
      s.setBuilding hq.id hq3

/-- A freshly fired projectile: 10x5 rect centered at `center`. -/
def mkProjectile (pid : Nat) (t : Team) (center : Int × Int) (tid : Nat) (dmg : Int) :
    Projectile :=
  { id := pid, team := t, x := center.1 - 5, y := center.2 - 2,
    targetUnit := tid, damage := dmg, particleTimer := 2, inRoster := true }

/-- The turret's target scan: nearest living enemy unit strictly inside
`ATTACK_RANGE` (first found on ties). -/
def turretScan (s : GameState) (tr : Building) : Option (GameUnit × Int) :=
  (s.teamRoster tr.team.enemy).foldl
    (fun (best : Option (GameUnit × Int)) (u : GameUnit) =>
      if decide (0 < u.health) then
        let d2 := dist2 tr.pos u.pos
        if decide (d2 < TURRET_ATTACK_RANGE ^ 2) &&
            (match best with
             | none => true
             | some pr => decide (d2 < pr.2)) then
          some (u, d2)
        else best
      else best)
    none

/-- The firing tail of `Turret.update`: a second cooldown decrement (on top of
the one in `GameObject.update`), then fire a projectile at the scanned target
and reset the cooldown. -/
def turret_fire (s : GameState) (tr : Building) : GameState :=
  let tr1 := if tr.cooldown > 0 then { tr with cooldown := tr.cooldown - 1 } else tr
  if tr1.cooldown = 0 then
    match turretScan s tr1 with
    | some pr =>
      let s1 :=
        { s with
          projectiles :=
            s.projectiles ++
              [mkProjectile s.nextId tr1.team tr1.pos pr.1.id TURRET_ATTACK_DAMAGE],
          nextId := s.nextId + 1 }
      s1.setBuilding tr.id
        { tr1 with targetUnit := some pr.1.id, cooldown := TURRET_ATTACK_COOLDOWN }
    | none => s.setBuilding tr.id { tr1 with targetUnit := none }
  else s.setBuilding tr.id tr1

/-- One building's update, dispatched on class as the main loop does. -/
def buildingStep (s : GameState) (bid : Nat) : GameState :=
  match s.buildings.find? (fun b => b.id == bid) with
  | none => s
  | some b =>
    let pr := building_base_update b
    let b2 := if pr.2 then { pr.1 with inRoster := false } else pr.1
    let s1 := s.setBuilding bid b2
    match b.kind with
    | .headquarters => hq_production s1 b2
    | .turret => turret_fire s1 b2
    | _ => s1

/-- `for building in global_buildings: building.update(...)` over a snapshot
of the group. -/
def buildingsPhase (s : GameState) : GameState :=
  (s.brosterAll.map (·.id)).foldl buildingStep s

/-! ## Projectiles (`projectile.py` and `handle_projectiles`) -/

/-- `Projectile.update`: self-destruct if the target object is dead, otherwise
fly one truncated step toward the target's current position, self-destructing
once within `HIT_RADIUS` of it.  No damage is dealt here. -/
def projectileUpd (s : GameState) (p : Projectile) : Projectile :=
  match s.objView p.targetUnit with
  | some v =>
    if 0 < v.health then
      let d2 := dist2 p.pos v.pos
      if d2 > HIT_RADIUS ^ 2 then
        let st := moveStep PROJECTILE_SPEED10 (v.pos.1 - p.pos.1) (v.pos.2 - p.pos.2) d2
        let pt := if p.particleTimer ≤ 0 then 2 else p.particleTimer - 1
        { p with x := p.x + st.1, y := p.y + st.2, particleTimer := pt }
      else { p with inRoster := false }
    else { p with inRoster := false }
  | none => { p with inRoster := false }

/-- `projectiles.update(particles)`: update every group member. -/
def projectilesPhase (s : GameState) : GameState :=
  { s with
    projectiles := s.projectiles.map (fun p => if p.inRoster then projectileUpd s p else p) }

/-- The collision pass of `handle_projectiles` for one projectile: damage the
first living enemy (units first, then buildings) whose rect overlaps the
projectile's rect, destroy the projectile, and kill the victim at
`health <= 0`. -/
def projImpactStep (s : GameState) (pid : Nat) : GameState :=
  match s.projectiles.find? (fun p => p.id == pid) with
  | none => s
  | some p =>
    let enemies :=
      (s.roster.filter (fun u => u.team != p.team && decide (0 < u.health))).map
          GameUnit.view ++
        (s.brosterAll.filter (fun b => b.team != p.team && decide (0 < b.health))).map
          Building.view
    match enemies.find? (fun v => rectsCollideB p.rect v.rect) with
    | some v => (s.hitEntity v.id p.damage true).killProjectile pid
    | none => s

/-- `handle_projectiles` over a snapshot of the projectile group. -/
def handle_projectiles (s : GameState) : GameState :=
  ((s.projectiles.filter (·.inRoster)).map (·.id)).foldl projImpactStep s

/-! ## Melee/ranged attacks (`handle_attacks`) -/

/-- Keep the current target: it must be alive and within `ATTACK_RANGE`. -/
def attackScanKeep (s : GameState) (u : GameUnit) : Option ObjView :=
  match u.targetUnit with
  | some tid =>
    match s.objView tid with
    | some v =>
      if decide (0 < v.health) &&
          decide (dist2 u.pos v.pos ≤ u.kind.attackRange ^ 2) then some v
      else none
    | none => none
  | none => none

/-- Scan all enemy units then buildings for the nearest living one within
`ATTACK_RANGE` (strictly-closer replacement, first found on ties). -/
def attackScanNew (s : GameState) (u : GameUnit) : Option (ObjView × Int) :=
  ((s.roster.map GameUnit.view) ++ (s.brosterAll.map Building.view)).foldl
    (fun (best : Option (ObjView × Int)) (v : ObjView) =>
      if v.team != u.team && decide (0 < v.health) then
        let d2 := dist2 u.pos v.pos
        if decide (d2 ≤ u.kind.attackRange ^ 2) &&
            (match best with
             | none => true
             | some pr => decide (d2 < pr.2)) then
          some (v, d2)
        else best
      else best)
    none

/-- One attacker's action in `handle_attacks`: tanks and infantry with a cold
cooldown acquire a target (keep the current one when valid, else the nearest
in range), then fire a projectile (tank) or apply melee damage (infantry),
clearing their own target when the victim dies, and reset the cooldown. -/
def attackStep (s : GameState) (uid : Nat) : GameState :=
  match s.units.find? (fun u => u.id == uid) with
  | none => s
  | some u =>
    if (u.kind == .tank || u.kind == .infantry) && u.cooldown == 0 then
      let tgt : Option ObjView :=
        match attackScanKeep s u with
        | some v => some v
        | none => (attackScanNew s u).map (fun (pr : ObjView × Int) => pr.1)
      match tgt with
      | none => s
      | some v =>
        let s1 := s.mapUnit uid
          (fun w => { w with targetUnit := some v.id, target := some v.pos })
        let s2 :=
          if u.kind == .tank then
            { s1 with
              projectiles :=
                s1.projectiles ++ [mkProjectile s1.nextId u.team u.pos v.id u.attackDamage],
              nextId := s1.nextId + 1 }
          else
            let died := decide (v.health - u.attackDamage ≤ 0)
            let sh := s1.hitEntity v.id u.attackDamage true
            if died then
              sh.mapUnit uid (fun w => { w with target := none, targetUnit := none })
            else sh
        s2.mapUnit uid (fun w => { w with cooldown := u.kind.attackCooldownPeriod })
    else s

/-- `handle_attacks(team_units=...)` over a snapshot of one team's group. -/
def handle_attacks (t : Team) (s : GameState) : GameState :=
  ((s.teamRoster t).map (·.id)).foldl attackStep s

/-! ## Pairwise collision separation (`handle_collisions`)

The push is `0.3` (two harvesters) or `0.5` pixels scaled by `dx/dist`; pygame
truncates the float rect coordinate on assignment, so with the integer rects
the push truncates to zero.  The truncated-step model reproduces that. -/

def collidePush (s : GameState) (pr : Nat × Nat) : GameState :=
  match s.units.find? (fun u => u.id == pr.1), s.units.find? (fun u => u.id == pr.2) with
  | some a, some b =>
    if rectsCollideB a.rect b.rect then
      let d2 := dist2 a.pos b.pos
      if 0 < d2 then
        let push10 : Int :=
          if a.kind == .harvester && b.kind == .harvester then 3 else 5
        let d := isqrt d2
        let dx := b.pos.1 - a.pos.1
        let dy := b.pos.2 - a.pos.2
        let sx := (push10 * dx).tdiv (10 * d)
        let sy := (push10 * dy).tdiv (10 * d)
        (s.mapUnit a.id (fun w => { w with x := w.x + sx, y := w.y + sy })).mapUnit
          b.id (fun w => { w with x := w.x - sx, y := w.y - sy })
      else s
    else s
  | _, _ => s

def handle_collisions (s : GameState) : GameState :=
  (((s.roster.map (·.id)).flatMap
      (fun i => (s.roster.map (·.id)).map (fun j => (i, j)))).filter
    (fun pr => pr.1 != pr.2)).foldl collidePush s

/-! ## Fog of war (`src/fog_of_war.py`)

The two boolean grids are modelled as functions on tile indices.  The nested
for-loops of `_reveal` set exactly the cells of the clamped square window that
pass the circular test, so `reveal` is their pointwise form. -/

def GRID_W : Int := MAP_WIDTH.fdiv TILE_SIZE
def GRID_H : Int := MAP_HEIGHT.fdiv TILE_SIZE

structure Fog where
  explored : Int → Int → Bool
  visible : Int → Int → Bool

def fogInit : Fog := ⟨fun _ _ => false, fun _ _ => false⟩

/-- `FogOfWar._tile`: floor-divide a position by the tile size. -/
def fogTile (p : Int × Int) : Int × Int := (p.1.fdiv TILE_SIZE, p.2.fdiv TILE_SIZE)

/-- The cell `(x, y)` is written by `_reveal(center, radius)`: it lies in the
clamped square window of `radius // TILE_SIZE` tiles around `center`'s tile
and its tile center is within `radius` of `center`. -/
def revealCond (c : Int × Int) (r : Int) (x y : Int) : Prop :=
  let t := fogTile c
  let rt := r.fdiv TILE_SIZE
  max 0 (t.1 - rt) ≤ x ∧ x < min GRID_W (t.1 + rt + 1) ∧
  max 0 (t.2 - rt) ≤ y ∧ y < min GRID_H (t.2 + rt + 1) ∧
  (c.1 - (x * TILE_SIZE + TILE_SIZE.fdiv 2)) ^ 2 +
      (c.2 - (y * TILE_SIZE + TILE_SIZE.fdiv 2)) ^ 2 ≤ r ^ 2

instance (c : Int × Int) (r x y : Int) : Decidable (revealCond c r x y) := by
  unfold revealCond; infer_instance

/-- `FogOfWar._reveal`: mark the window-and-circle cells explored and
visible. -/
def Fog.reveal (f : Fog) (c : Int × Int) (r : Int) : Fog :=
  { explored := fun x y => f.explored x y || decide (revealCond c r x y),
    visible := fun x y => f.visible x y || decide (revealCond c r x y) }

/-- `FogOfWar.update`: clear `visible` (keeping `explored`), then reveal
around every friendly unit (radius 150) and building (radius 200). -/
def fow_update (f : Fog) (unitsPos buildingsPos : List (Int × Int)) : Fog :=
  let f1 : Fog := { explored := f.explored, visible := fun _ _ => false }
  let f2 := unitsPos.foldl (fun g c => g.reveal c UNIT_EXPLORATION_RADIUS) f1
  buildingsPos.foldl (fun g c => g.reveal c BUILDING_EXPLORATION_RADIUS) f2

/-- `FogOfWar.is_explored` (false outside the grid). -/
def Fog.is_explored (f : Fog) (p : Int × Int) : Bool :=
  let t := fogTile p
  if 0 ≤ t.1 ∧ t.1 < GRID_W ∧ 0 ≤ t.2 ∧ t.2 < GRID_H then f.explored t.1 t.2
  else false

/-- `FogOfWar.is_visible` (false outside the grid). -/
def Fog.is_visible (f : Fog) (p : Int × Int) : Bool :=
  let t := fogTile p
  if 0 ≤ t.1 ∧ t.1 < GRID_W ∧ 0 ≤ t.2 ∧ t.2 < GRID_H then f.visible t.1 t.2
  else false

/-! ## The strategic AI controller (`src/ai.py`) -/

def AI_ACTION_INTERVAL : Int := 50
def AI_MAX_WAVE_SIZE : Int := 25
def AI_SCOUT_INTERVAL : Int := 200
def AI_THREAT_RANGE : Int := 500

/-- The `AI` dataclass state.  `state` is kept as the Python string, because
`produce_objs` compares it against differently-capitalized literals. -/
structure AIState where
  hqId : Nat
  timer : Int
  waveTimer : Int
  waveInterval : Int
  waveNumber : Int
  state : String
  defenseCooldown : Int
  scoutTargets : List (Int × Int)
  ironIncomeRate : Q
  lastScoutUpdate : Int
  surpriseAttackCooldown : Int
  deriving DecidableEq, Repr

/-- The random draws one tick can consume, passed in explicitly. -/
structure Rng where
  prodPick : Nat
  tacticPick : Nat
  surprise : Bool
  freshWaveInterval : Int
  offsets : Nat → Int × Int

def Q.divInt (q : Q) (k : Int) : Q := ⟨q.num, q.den * k⟩

/-- `self.iron_income_rate = sum(h.iron for harvesters) / max(1, count) * 60 / 40`. -/
def aiIncome (friendlyUnits : List GameUnit) : Q :=
  let harvs := friendlyUnits.filter (fun u => u.kind == .harvester)
  let sumIron := harvs.foldl (fun a u => a + u.iron) 0
  ((Q.mk sumIron (max 1 harvs.length)).mul (Q.ofInt 60)).divInt 40

/-- `AI.determine_state`: recompute the income estimate and classify the
strategic state by the fixed priority chain. -/
def determine_state (ai : AIState) (hq : Building) (friendlyUnits : List GameUnit)
    (enemyUnits : List GameUnit) (enemyBuildings : List Building) : AIState :=
  let playerBaseSize : Int := enemyUnits.length + enemyBuildings.length
  let income := aiIncome friendlyUnits
  let st :=
    if hq.iron < 300 ∨ Q.lt income (Q.ofInt 50) then "BROKE"
    else if Q.lt (Q.ofInt hq.health) ((Q.ofInt hq.maxHealth).mul ⟨6, 10⟩) ∨
        ai.defenseCooldown > 0 then "ATTACKED"
    else if enemyUnits.any (fun u => decide (dist2 u.pos hq.pos < AI_THREAT_RANGE ^ 2))
      then "THREATENED"
    else if ai.waveNumber ≥ 2 ∨ playerBaseSize > 8 then "AGGRESSIVE"
    else "BUILD_UP"
  { ai with state := st, ironIncomeRate := income }

/-- `AI.update_scouting`: every 200 ticks, rebuild the target list if empty
(field positions, the map center, the enemy headquarters once discovered) and
send up to 3 idle infantry to the next targets. -/
def update_scouting (ai : AIState) (s : GameState) (team : Team) : AIState × GameState :=
  if ai.lastScoutUpdate ≤ 0 then
    let ai1 :=
      if ai.scoutTargets.isEmpty then
        let base := (s.fields.map IronField.pos) ++
          [(MAP_WIDTH.fdiv 2, MAP_HEIGHT.fdiv 2)]
        let ts :=
          match (s.teamBuildings team.enemy).find? (fun b => b.kind == .headquarters)
            with
          | some hqB => base ++ [hqB.pos]
          | none => base
        { ai with scoutTargets := ts }
      else ai
    let scouts :=
      ((s.teamRoster team).filter
        (fun u => u.kind == .infantry && u.target == none)).take 3
    let step := fun (pr : AIState × GameState) (u : GameUnit) =>
      match pr.1.scoutTargets with
      | t :: rest =>
        ({ pr.1 with scoutTargets := rest },
         pr.2.mapUnit u.id (fun w => { w with target := some t, targetUnit := none }))
      | [] => pr
    let pr := scouts.foldl step (ai1, s)
    ({ pr.1 with lastScoutUpdate := AI_SCOUT_INTERVAL }, pr.2)
  else ({ ai with lastScoutUpdate := ai.lastScoutUpdate - 1 }, s)

/-- Doubled priority weight of an enemy entity in
`AI.determine_priority_target` (3, 2.5, 2, 1.5, 1 scaled by 2). -/
def aiPriority2 (v : ObjView) : Int :=
  if v.isUnit then
    if v.ukind == .harvester then 6
    else if v.health * 10 < 3 * v.maxHealth then 3
    else 2
  else
    if v.bkind == .headquarters then 5
    else if v.bkind == .turret then 4
    else 2

/-- `AI.determine_priority_target`: score every living enemy by
`distance / priority` and return the best if it is within 250 pixels.  The
comparison is done on squared distances against squared priorities, which
orders identically. -/
def determine_priority_target (u : GameUnit) (enemyUnits : List GameUnit)
    (enemyBuildings : List Building) : Option ObjView :=
  let cands :=
    ((enemyUnits.filter (fun e => decide (0 < e.health))).map GameUnit.view) ++
      ((enemyBuildings.filter (fun b => decide (0 < b.health))).map Building.view)
  let best :=
    cands.foldl
      (fun (best : Option (ObjView × Int)) (v : ObjView) =>
        let d2 := dist2 u.pos v.pos
        match best with
        | none => some (v, d2)
        | some pr =>
          if d2 * aiPriority2 pr.1 ^ 2 < pr.2 * aiPriority2 v ^ 2 then some (v, d2)
          else best)
      none
  match best with
  | some pr => if pr.2 < 250 ^ 2 then some pr.1 else none
  | none => none

/-- Integer floors of `120 * (cos, sin)` at 20-degree steps, the AI's radial
placement offsets. -/
def AI_PLACEMENT_OFFSETS : List (Int × Int) :=
  [(120, 0), (112, 41), (91, 77), (60, 103), (20, 118),
   (-21, 118), (-60, 103), (-92, 77), (-113, 41), (-120, 0),
   (-113, -42), (-92, -78), (-60, -104), (-21, -119), (20, -119),
   (60, -104), (91, -78), (112, -42)]

/-- `is_valid_building_position` (`src/geometry.py`): footprint inside the
map, within construction range of a living friendly building, overlapping no
living building. -/
def is_valid_building_position (pos : Int × Int) (t : Team) (bk : BuildingKind)
    (buildings : List Building) : Prop :=
  let sz := bk.size
  (0 ≤ pos.1 ∧ 0 ≤ pos.2 ∧ pos.1 + sz.1 ≤ MAP_WIDTH ∧ pos.2 + sz.2 ≤ MAP_HEIGHT) ∧
  (∃ b ∈ buildings,
    b.team = t ∧ 0 < b.health ∧ dist2 pos b.pos < BUILDING_CONSTRUCTION_RANGE ^ 2) ∧
  ¬ ∃ b ∈ buildings,
      0 < b.health ∧ rectsCollide (pos.1, pos.2, sz.1, sz.2) b.rect

instance (pos : Int × Int) (t : Team) (bk : BuildingKind) (bs : List Building) :
    Decidable (is_valid_building_position pos t bk bs) := by
  unfold is_valid_building_position; infer_instance

def is_valid_building_positionB (pos : Int × Int) (t : Team) (bk : BuildingKind)
    (buildings : List Building) : Bool :=
  decide (is_valid_building_position pos t bk buildings)

/-- `AI.find_valid_building_position`: scan snapped radial offsets around each
living friendly building, returning the first valid spot (near the closest
iron field when one exists), defaulting to the headquarters tile. -/
def find_valid_building_position (hq : Building) (bk : BuildingKind)
    (friendlyBuildings enemyBuildings : List Building) (fields : List IronField) :
    Int × Int :=
  let closestF := closestField hq.pos fields
  let cands :=
    (friendlyBuildings.filter (fun b => decide (0 < b.health))).flatMap
      (fun b => AI_PLACEMENT_OFFSETS.map
        (fun o => snap_to_grid (b.pos.1 + o.1, b.pos.2 + o.2)))
  let ok := fun (p : Int × Int) =>
    is_valid_building_positionB p hq.team bk (friendlyBuildings ++ enemyBuildings) &&
      (match closestF with
       | some f => decide (dist2 p f.pos < 600 ^ 2)
       | none => true)
  match cands.find? ok with
  | some p => p
  | none => snap_to_grid hq.pos

/-- A freshly constructed building at a snapped top-left position.  A new
Headquarters starts with 1500 iron and an empty queue. -/
def mkBuilding (bid : Nat) (k : BuildingKind) (t : Team) (topleft : Int × Int) :
    Building :=
  let sz := k.size
  { id := bid, kind := k, team := t,
    x := topleft.1, y := topleft.2, w := sz.1, h := sz.2,
    health := k.maxHealth, maxHealth := k.maxHealth,
    constructionProgress := 0, cooldown := 0, targetUnit := none,
    underAttack := false, isExplored := false, inRoster := true,
    iron := if k == .headquarters then 1500 else 0,
    queue := [], timer := Q.zero, pendingBuilding := none, pendingPos := none,
    powerOutput := 0, powerUsage := 0 }

/-- `Headquarters.place_building`: on a valid snapped position, add the new
building, clear the pending selection and restart the production timer when
powered. -/
def place_building (s : GameState) (hqId : Nat) (pos : Int × Int)
    (bk : BuildingKind) : GameState :=
  match s.buildings.find? (fun b => b.id == hqId) with
  | none => s
  | some hq =>
    let snapped := snap_to_grid pos
    if is_valid_building_positionB snapped hq.team bk s.brosterAll then
      let s1 :=
        { s with buildings := s.buildings ++ [mkBuilding s.nextId bk hq.team snapped],
                 nextId := s.nextId + 1 }
      let fb := s1.teamBuildings hq.team
      let newTimer :=
        match hq.queue with
        | item :: _ =>
          if decide (hq.powerUsage ≤ hq.powerOutput) then get_production_time fb item
          else hq.timer
        | [] => hq.timer
      s1.setBuilding hqId
        { hq with pendingBuilding := none, pendingPos := none, timer := newTimer }
    else s

/-- `AI._produce_obj`: append to the queue and pay the cost. -/
def produceObj (s : GameState) (hqId : Nat) (item : ProdItem) : GameState :=
  s.mapBuilding hqId
    (fun b => { b with queue := b.queue ++ [item], iron := b.iron - item.cost })

/-- `AI.produce_objs`: the fixed-priority chain (Barracks, WarFactory,
PowerPlant, Harvester), then — `iron` permitting — one random item from a
state-dependent candidate list, then the trailing timer/pending-placement
maintenance.  The state strings compared here are the title-case literals of
the source (`"Build Up"`, `"Aggressive"`, `"Attacked"`, `"Threatened"`),
which differ from the values `determine_state` assigns. -/
def produce_objs (rng : Rng) (ai : AIState) (s : GameState) (hqId : Nat)
    (enemyHarv : Int) : GameState :=
  match s.buildings.find? (fun b => b.id == hqId) with
  | none => s
  | some hq =>
    let fu := s.teamRoster hq.team
    let fb := s.teamBuildings hq.team
    let eb := s.teamBuildings hq.team.enemy
    let nHarv : Int := (fu.filter (fun u => u.kind == .harvester)).length
    let nInf : Int := (fu.filter (fun u => u.kind == .infantry)).length
    let nTank : Int := (fu.filter (fun u => u.kind == .tank)).length
    let nTurret : Int := (fb.filter (fun b => b.kind == .turret)).length
    let nPP : Int := (fb.filter (fun b => b.kind == .powerPlant)).length
    let nBarracks : Int :=
      (fb.filter (fun b => b.kind == .barracks && decide (0 < b.health))).length +
        (hq.queue.filter (fun i => i == ProdItem.building .barracks)).length
    let nWF : Int :=
      (fb.filter (fun b => b.kind == .warFactory && decide (0 < b.health))).length +
        (hq.queue.filter (fun i => i == ProdItem.building .warFactory)).length
    let dHarv : Int := 7
    let dInf : Int := 10
    let dTank : Int := 5
    let dTurret : Int := 5
    let dPP : Int := max 1 ((nHarv + 1).fdiv 2)
    let hasB := decide (0 < nBarracks)
    let hasW := decide (0 < nWF)
    let totalMil := nInf + nTank + nTurret
    let iron := hq.iron
    if !hasB ∧ iron ≥ (BuildingKind.barracks).cost then
      produceObj s hqId (.building .barracks)
    else if !hasW ∧ iron ≥ (BuildingKind.warFactory).cost then
      produceObj s hqId (.building .warFactory)
    else if hq.powerUsage ≤ hq.powerOutput ∧ iron ≥ (BuildingKind.powerPlant).cost ∧
        nPP < dPP then
      produceObj s hqId (.building .powerPlant)
    else if (nHarv < min dHarv (enemyHarv + 1) ∨
          Q.lt ai.ironIncomeRate (Q.ofInt 50)) ∧
        iron ≥ (UnitKind.harvester).cost ∧ hasW then
      produceObj s hqId (.unit .harvester)
    else if iron ≤ 0 then s
    else
      let s1 :=
        if ai.state == "Build Up" || ai.state == "Aggressive" then
          let opts : List ProdItem :=
            (if totalMil < 6 ∧ hasB ∧ iron ≥ (UnitKind.infantry).cost ∧ nInf < dInf
              then [.unit .infantry] else []) ++
            (if totalMil < 6 ∧ hasW ∧ iron ≥ (UnitKind.tank).cost ∧ nTank < dTank
              then [.unit .tank] else []) ++
            (if iron ≥ (BuildingKind.turret).cost ∧ nTurret < dTurret
              then [.building .turret] else []) ++
            (if hasB ∧ iron ≥ (UnitKind.infantry).cost ∧ nInf < dInf
              then [.unit .infantry] else []) ++
            (if hasW ∧ iron ≥ (UnitKind.tank).cost ∧ nTank < dTank
              then [.unit .tank] else []) ++
            (if nHarv < dHarv ∧ iron ≥ (UnitKind.harvester).cost ∧ hasW
              then [.unit .harvester] else []) ++
            (if nPP < dPP ∧ iron ≥ (BuildingKind.powerPlant).cost
              then [.building .powerPlant] else []) ++
            (if nBarracks < 2 ∧ iron ≥ (BuildingKind.barracks).cost ∧ totalMil ≥ 6
              then [.building .barracks] else []) ++
            (if nWF < 2 ∧ iron ≥ (BuildingKind.warFactory).cost ∧ totalMil ≥ 6
              then [.building .warFactory] else []) ++
            (if iron ≥ (BuildingKind.headquarters).cost ∧ nHarv ≥ 2
              then [.building .headquarters] else [])
          if opts.isEmpty then s
          else produceObj s hqId (opts.getD (rng.prodPick % opts.length) (.unit .infantry))
        else if ai.state == "Attacked" || ai.state == "Threatened" then
          let opts : List ProdItem :=
            (if iron ≥ (BuildingKind.turret).cost ∧ nTurret < dTurret
              then [.building .turret] else []) ++
            (if hasW ∧ iron ≥ (UnitKind.tank).cost ∧ nTank < dTank
              then [.unit .tank] else []) ++
            (if hasB ∧ iron ≥ (UnitKind.infantry).cost ∧ nInf < dInf
              then [.unit .infantry] else []) ++
            (if nHarv < min dHarv (enemyHarv + 1) ∧ iron ≥ (UnitKind.harvester).cost ∧
                hasW then [.unit .harvester] else []) ++
            (if nPP < dPP ∧ iron ≥ (BuildingKind.powerPlant).cost
              then [.building .powerPlant] else [])
          if opts.isEmpty then s
          else produceObj s hqId (opts.getD (rng.prodPick % opts.length) (.unit .infantry))
        else if ai.state == "BROKE" ∧ hasW ∧ iron ≥ (UnitKind.harvester).cost ∧
            nHarv < min dHarv (enemyHarv + 1) then
          produceObj s hqId (.unit .harvester)
        else s
      let s2 :=
        match s1.buildings.find? (fun b => b.id == hqId) with
        | none => s1
        | some hq1 =>
          let s2 :=
            match hq1.queue with
            | item :: _ =>
              if hq1.timer.isZero then
                s1.setBuilding hqId { hq1 with timer := get_production_time fb item }
              else s1
            | [] => s1
          match hq1.pendingBuilding, hq1.pendingPos with
          | some bk, none =>
            let pos := find_valid_building_position hq1 bk fb eb s2.fields
            let s3 := s2.mapBuilding hqId (fun b => { b with pendingPos := some pos })
            place_building s3 hqId pos bk
          | _, _ => s2
      s2

/-- `AI.coordinate_attack`: bump the wave counter, pick a tactic from the
state-dependent pool, and order idle tanks/infantry onto targets. -/
def coordinate_attack (rng : Rng) (surprise : Bool) (ai : AIState) (s : GameState)
    (hq : Building) : AIState × GameState :=
  let team := hq.team
  let friendly := s.teamRoster team
  let enemyUnits := s.teamRoster team.enemy
  let enemyBuildings := s.teamBuildings team.enemy
  let ai1 := { ai with waveTimer := 0, waveNumber := ai.waveNumber + 1 }
  let waveSize : Int :=
    if surprise then min (12 + ai1.waveNumber) AI_MAX_WAVE_SIZE
    else min (8 + ai1.waveNumber * 2) AI_MAX_WAVE_SIZE
  let ai2 := { ai1 with waveInterval := rng.freshWaveInterval }
  let combat := friendly.filter
    (fun u => (u.kind == .tank || u.kind == .infantry) && u.target == none)
  if combat.isEmpty then (ai2, s)
  else
    let tactics : List String :=
      if ai2.state == "AGGRESSIVE" || surprise then ["balanced", "flank", "all_in"]
      else if ai2.state == "THREATENED" || ai2.state == "ATTACKED" then
        ["all_in", "defensive"]
      else ["balanced", "flank", "all_in"]
    let tactic := tactics.getD (rng.tacticPick % tactics.length) "balanced"
    let assignTo := fun (s0 : GameState) (tv : ObjView) (units : List GameUnit) =>
      (units.foldl
        (fun (st : GameState × Nat) w =>
          (st.1.mapUnit w.id
            (fun u =>
              { u with targetUnit := some tv.id,
                       target := some (tv.pos.1 + (rng.offsets st.2).1,
                                       tv.pos.2 + (rng.offsets st.2).2) }),
           st.2 + 1))
        (s0, 0)).1
    if tactic == "balanced" then
      let infs := combat.filter (fun u => u.kind == .infantry)
      let tanks := combat.filter (fun u => u.kind == .tank)
      let infCount := min ((waveSize * 6).tdiv 10) (infs.length : Int)
      let tankCount := min ((waveSize * 4).tdiv 10) (tanks.length : Int)
      let attack := infs.take infCount.toNat ++ tanks.take tankCount.toNat
      match attack with
      | [] => (ai2, s)
      | first :: _ =>
        match determine_priority_target first enemyUnits enemyBuildings with
        | some tv => (ai2, assignTo s tv attack)
        | none => (ai2, s)
    else if tactic == "flank" then
      let attack := combat.take waveSize.toNat
      match enemyBuildings.find? (fun b => b.kind == .headquarters) with
      | some ghq =>
        (ai2,
         (attack.foldl
           (fun (st : GameState × Nat) w =>
             (st.1.mapUnit w.id
               (fun u =>
                 { u with target := some (ghq.pos.1 + (rng.offsets st.2).1,
                                          ghq.pos.2 + (rng.offsets st.2).2),
                          targetUnit := some ghq.id }),
              st.2 + 1))
           (s, 0)).1)
      | none => (ai2, s)
    else if tactic == "all_in" then
      let attack := combat.take waveSize.toNat
      match attack with
      | [] => (ai2, s)
      | first :: _ =>
        match determine_priority_target first enemyUnits enemyBuildings with
        | some tv => (ai2, assignTo s tv attack)
        | none => (ai2, s)
    else
      let attack := combat.take waveSize.toNat
      (ai2,
       (attack.foldl
         (fun (st : GameState × Nat) w =>
           (st.1.mapUnit w.id
             (fun u =>
               { u with target := some (hq.pos.1 + (rng.offsets st.2).1,
                                        hq.pos.2 + (rng.offsets st.2).2),
                        targetUnit := none }),
            st.2 + 1))
         (s, 0)).1)

/-- `AI.update`: advance the timers, classify the state, scout, take a
production decision every 50 ticks, and launch surprise or scheduled attack
waves. -/
def ai_update (rng : Rng) (ai : AIState) (s : GameState) : AIState × GameState :=
  match s.buildings.find? (fun b => b.id == ai.hqId) with
  | none => (ai, s)
  | some hq =>
    let team := hq.team
    let enemyUnits := s.teamRoster team.enemy
    let enemyBuildings := s.teamBuildings team.enemy
    let eHarv : Int := (enemyUnits.filter (fun u => u.kind == .harvester)).length
    let eTank : Int := (enemyUnits.filter (fun u => u.kind == .tank)).length
    let eInf : Int := (enemyUnits.filter (fun u => u.kind == .infantry)).length
    let eTurret : Int := (enemyBuildings.filter (fun b => b.kind == .turret)).length
    let ai1 :=
      { ai with timer := ai.timer + 1, waveTimer := ai.waveTimer + 1,
                surpriseAttackCooldown := max 0 (ai.surpriseAttackCooldown - 1) }
    let ai2 := determine_state ai1 hq (s.teamRoster team) enemyUnits enemyBuildings
    let pr1 := update_scouting ai2 s team
    let pr2 :=
      if pr1.1.timer ≥ AI_ACTION_INTERVAL then
        ({ pr1.1 with timer := 0 }, produce_objs rng pr1.1 pr1.2 ai.hqId eHarv)
      else pr1
    let hq2 :=
      match pr2.2.buildings.find? (fun b => b.id == ai.hqId) with
      | some b => b
      | none => hq
    if pr2.1.surpriseAttackCooldown ≤ 0 ∧ eTank + eInf + eTurret < 5 ∧
        rng.surprise then
      let pr3 := coordinate_attack rng true pr2.1 pr2.2 hq2
      ({ pr3.1 with surpriseAttackCooldown := 300 }, pr3.2)
    else if pr2.1.waveTimer ≥ pr2.1.waveInterval then
      coordinate_attack rng false pr2.1 pr2.2 hq2
    else pr2

/-! ## The tick (`CondaRTS.py` main loop, simulation part) -/

/-- `fog_of_war.update(units=player_units, buildings=player_buildings)`. -/
def fogPhase (fog : Fog) (s : GameState) : Fog :=
  fow_update fog ((s.teamRoster .gdi).map (·.pos)) ((s.teamBuildings .gdi).map (·.pos))

/-- The loop marking explored AI buildings as known
(`building.is_explored = True`). -/
def markExplored (fog : Fog) (s : GameState) : GameState :=
  { s with
    buildings := s.buildings.map
      (fun b =>
        if b.inRoster && b.team == Team.nod && decide (0 < b.health) &&
            fog.is_explored b.pos then
          { b with isExplored := true }
        else b) }

/-- `for unit in global_units: unit.under_attack = False` — the end-of-tick
clearing loop runs over the unit group only. -/
def clear_under_attack (s : GameState) : GameState :=
  { s with
    units := s.units.map
      (fun u => if u.inRoster then { u with underAttack := false } else u) }

/-- One full simulation tick, in the main loop's order: unit updates, iron
field regeneration, building updates, projectile flight, collision
separation, both teams' attacks, projectile impacts, the AI step, the fog
refresh with explored-marking, and the transient-flag clearing.  `none` is a
tick on which the Python code would raise. -/
def tick (fog : Fog) (rng : Rng) (ai : AIState) (s : GameState) :
    Option (GameState × AIState × Fog) :=
  match unitsPhase s with
  | none => none
  | some s1 =>
    let s2 := fieldsPhase s1
    let s3 := buildingsPhase s2
    let s4 := projectilesPhase s3
    let s5 := handle_collisions s4
    let s6 := handle_attacks .gdi s5
    let s7 := handle_attacks .nod s6
    let s8 := handle_projectiles s7
    let pr := ai_update rng ai s8
    let fog1 := fogPhase fog pr.2
    let s9 := markExplored fog1 pr.2
    let s10 := clear_under_attack s9
    some (s10, pr.1, fog1)

/-! ## Concrete states used to evaluate the theorems on explicit inputs -/

/-- A finished (fully constructed) building. -/
def exBuilding (bid : Nat) (k : BuildingKind) (t : Team) (topleft : Int × Int) :
    Building :=
  { mkBuilding bid k t topleft with constructionProgress := 50 }

def exHQgdi : Building := exBuilding 0 .headquarters .gdi (300, 300)

def exHQnod : Building := exBuilding 1 .headquarters .nod (1300, 500)

def exWFnod : Building := exBuilding 2 .warFactory .nod (1400, 500)

def exRng : Rng :=
  { prodPick := 0, tacticPick := 0, surprise := false, freshWaveInterval := 200,
    offsets := fun _ => (0, 0) }

def exAI : AIState :=
  { hqId := 1, timer := 0, waveTimer := 0, waveInterval := 200, waveNumber := 0,
    state := "BUILD_UP", defenseCooldown := 0, scoutTargets := [],
    ironIncomeRate := Q.zero, lastScoutUpdate := 0, surpriseAttackCooldown := 0 }

/-- C1/C8 example world: one infantry per side near its headquarters. -/
def c1s : GameState :=
  { units := [mkUnit 10 .infantry .gdi (360, 340) 0,
              mkUnit 11 .infantry .nod (1360, 540) 1],
    buildings := [exHQgdi, exHQnod], projectiles := [], fields := [], nextId := 20 }

/-- C2: a NOD headquarters with a queued Tank, timer 0, and 12 turrets whose
power draw (25 each, plus the war factory's 35) exceeds the base 300. -/
def c2hq : Building := { exHQnod with queue := [ProdItem.unit .tank] }

def c2turrets : List Building :=
  (List.range 12).map (fun i => exBuilding (30 + i) .turret .nod (40 * i, 700))

def c2sUnder : GameState :=
  { units := [], buildings := c2hq :: exWFnod :: c2turrets, projectiles := [],
    fields := [], nextId := 99 }

def c2sPowered : GameState :=
  { units := [], buildings := [c2hq, exWFnod], projectiles := [], fields := [],
    nextId := 99 }

/-- C3: a queued Infantry about to complete while no barracks exists. -/
def c3hq : Building :=
  { exHQnod with queue := [ProdItem.unit .infantry], timer := Q.one }

def c3s : GameState :=
  { units := [], buildings := [c3hq, exWFnod], projectiles := [], fields := [],
    nextId := 99 }

/-- C4: a live projectile sitting exactly on its living target. -/
def c4target : GameUnit := mkUnit 50 .infantry .gdi (100, 100) 0

def c4proj : Projectile := mkProjectile 60 .nod (100, 100) 50 15

def c4s : GameState :=
  { units := [c4target], buildings := [], projectiles := [c4proj], fields := [],
    nextId := 99 }

/-- C4 witness state: a live projectile overlapping its living target's rect
from 10 pixels away. -/
def c4proj2 : Projectile := mkProjectile 61 .nod (90, 100) 50 15

def c4s2 : GameState :=
  { units := [c4target], buildings := [], projectiles := [c4proj2], fields := [],
    nextId := 99 }

/-- C7: an AGGRESSIVE AI whose priority chain is fully satisfied and which can
afford a Turret, so the claim's candidate list is non-empty. -/
def c7hq : Building := { exHQnod with iron := 700 }

def c7s : GameState :=
  { units := [mkUnit 70 .harvester .nod (1000, 400) 1,
              mkUnit 71 .harvester .nod (1050, 400) 1],
    buildings := [c7hq, exWFnod, exBuilding 4 .barracks .nod (1100, 400),
                  exBuilding 3 .powerPlant .nod (1200, 400)],
    projectiles := [], fields := [], nextId := 99 }

def c7ai : AIState :=
  { exAI with state := "AGGRESSIVE", ironIncomeRate := Q.ofInt 100 }

def c7aiThreatened : AIState := { c7ai with state := "THREATENED" }

/-- C8: a building marked under attack survives the tick with the flag set. -/
def c8hq : Building := { exHQgdi with underAttack := true }

def c8unit : GameUnit :=
  { mkUnit 10 .infantry .gdi (360, 340) 0 with underAttack := true }

def c8s : GameState :=
  { units := [c8unit], buildings := [c8hq, exHQnod], projectiles := [], fields := [],
    nextId := 20 }

/-- C9: a GDI tank ordered onto a NOD infantry about 400 pixels away. -/
def c9target : GameUnit := mkUnit 50 .infantry .nod (700, 340) 1

def c9tank : GameUnit :=
  { mkUnit 40 .tank .gdi (300, 340) 0 with
    target := some (700, 340), targetUnit := some 50 }

def c9near : GameUnit :=
  { mkUnit 41 .tank .gdi (580, 340) 0 with
    target := some (700, 340), targetUnit := some 50 }

def c9s : GameState :=
  { units := [c9tank, c9near, c9target], buildings := [], projectiles := [],
    fields := [], nextId := 99 }

/-- C10: a NOD harvester beside a GDI infantry (in range), a GDI tank even
closer (must be ignored), and a farther GDI infantry. -/
def c10harv : GameUnit := mkUnit 80 .harvester .nod (500, 400) 1

def c10inf : GameUnit := mkUnit 81 .infantry .gdi (530, 400) 0

def c10infFar : GameUnit := mkUnit 82 .infantry .gdi (545, 400) 0

def c10tank : GameUnit := mkUnit 83 .tank .gdi (510, 400) 0

def c10s : GameState :=
  { units := [c10harv, c10inf, c10infFar, c10tank], buildings := [exHQgdi],
    projectiles := [], fields := [], nextId := 99 }

/-- The invariant of claim C1: every unit and building still in the rosters
has strictly positive health. -/
def AllPositive (s : GameState) : Prop :=
  (∀ u ∈ s.units, u.inRoster = true → 0 < u.health) ∧
  (∀ b ∈ s.buildings, b.inRoster = true → 0 < b.health)

instance (s : GameState) : Decidable (AllPositive s) := by
  unfold AllPositive
  infer_instance

/-- The tick result on the C8 state (total, since the tick succeeds there). -/
def c8out : GameState × AIState × Fog :=
  (tick fogInit exRng exAI c8s).getD (c8s, exAI, fogInit)

/-- The tick result on the C1 state. -/
def c1out : GameState × AIState × Fog :=
  (tick fogInit exRng exAI c1s).getD (c1s, exAI, fogInit)

/-! ## Theorems -/

/-- C2: the claim states that with a non-empty production queue the timer
decreases by exactly 1.0 per tick at full power and 0.5 otherwise, and that
consequently an item never completes in fewer ticks underpowered than at full
power.  The code violates the consequence: with the head item's timer at `0`
and `power_output < power_usage`, `Headquarters.update` skips the timer
initialization (it is guarded by `has_enough_power`), decrements `0` to
`-0.5`, and completes the item on that single update — here the queued Tank
spawns immediately — while the identical fully-powered headquarters
initializes the timer to `162` and needs over a hundred updates. -/
theorem c2_underpowered_production_completes_instantly :
    ((hq_production c2sUnder c2hq).buildings.head?.map Building.queue = some [] ∧
      (hq_production c2sUnder c2hq).units.length = c2sUnder.units.length + 1) ∧
    ((hq_production c2sPowered c2hq).buildings.head?.map Building.queue =
        some [ProdItem.unit .tank] ∧
      (hq_production c2sPowered c2hq).units = c2sPowered.units) ∧
    hq_power_output (c2sUnder.teamBuildings .nod) <
      hq_power_usage c2hq.id (c2sUnder.teamRoster .nod)
        (c2sUnder.teamBuildings .nod) :=
  ⟨⟨rfl, rfl⟩, ⟨rfl, rfl⟩, by decide⟩

/-- C7: the claim states that when none of the priority items is enqueued and
iron is positive, exactly one random candidate is enqueued in the
aggressive/build-up and threatened/attacked states.  In the code those
branches compare `self.state` against `"Build Up"`, `"Aggressive"`,
`"Attacked"`, `"Threatened"`, while `determine_state` assigns `"BUILD_UP"`,
`"AGGRESSIVE"`, `"ATTACKED"`, `"THREATENED"`, so the branches never run: here
an AGGRESSIVE (and a THREATENED) AI with a satisfied priority chain, 700 iron
(enough for the claim's Turret candidate: cost 600, none built, quota 5)
enqueues nothing and the state is returned unchanged. -/
theorem c7_aggressive_production_enqueues_nothing :
    produce_objs exRng c7ai c7s 1 1 = c7s ∧
    produce_objs exRng c7aiThreatened c7s 1 1 = c7s ∧
    (BuildingKind.turret).cost ≤ c7hq.iron :=
  ⟨rfl, rfl, by decide⟩

/-- The explored grid after a reveal fold: the old value or some revealed
center's condition. -/
theorem foldl_reveal_explored (r : Int) (l : List (Int × Int)) (f : Fog)
    (x y : Int) :
    ((l.foldl (fun g c => g.reveal c r) f).explored x y) =
      (f.explored x y || l.any (fun c => decide (revealCond c r x y))) := by
  induction l generalizing f with
  | nil => simp
  | cons c t ih =>
    rw [List.foldl_cons, ih]
    simp [Fog.reveal, Bool.or_assoc]

/-- The visible grid after a reveal fold. -/
theorem foldl_reveal_visible (r : Int) (l : List (Int × Int)) (f : Fog)
    (x y : Int) :
    ((l.foldl (fun g c => g.reveal c r) f).visible x y) =
      (f.visible x y || l.any (fun c => decide (revealCond c r x y))) := by
  induction l generalizing f with
  | nil => simp
  | cons c t ih =>
    rw [List.foldl_cons, ih]
    simp [Fog.reveal, Bool.or_assoc]

/-- C5 (amended): `explored` is monotone across `FogOfWar.update` — once true
it stays true — and `visible` is recomputed from scratch each call; but a tile
is set visible exactly when it lies in the clamped square tile window *and*
within the circular radius of some friendly unit or building (`revealCond`),
not merely within the radius: the `_reveal` loops only scan
`radius // TILE_SIZE` tiles around the entity's tile, which cuts off tiles
whose centers are inside the circle (see the counterexample). -/
theorem c5_fog_explored_monotone_visible_window (f : Fog)
    (us bs : List (Int × Int)) (x y : Int) :
    (f.explored x y = true → (fow_update f us bs).explored x y = true) ∧
    ((fow_update f us bs).visible x y = true ↔
      (∃ c ∈ us, revealCond c UNIT_EXPLORATION_RADIUS x y) ∨
      (∃ c ∈ bs, revealCond c BUILDING_EXPLORATION_RADIUS x y)) := by
  unfold fow_update
  constructor
  · intro h
    rw [foldl_reveal_explored, foldl_reveal_explored]
    simp only [h, Bool.true_or]
  · rw [foldl_reveal_visible, foldl_reveal_visible]
    simp [List.any_eq_true]

/-- C5 witness: the theorem applied at the unit position `(160, 16)` shows
tile `(1, 0)` visible. -/
theorem c5_fog_explored_monotone_visible_window_witness :
    (fow_update fogInit [(160, 16)] []).visible 1 0 = true :=
  (c5_fog_explored_monotone_visible_window fogInit [(160, 16)] [] 1 0).2.mpr
    (Or.inl ⟨(160, 16), by simp, by decide⟩)

/-- C5 counterexample: the claim as stated — `visible` is set exactly for the
tiles within the reveal radius of some friendly entity — fails: for a unit at
`(160, 16)`, tile `(0, 0)` has its center `(16, 16)` at distance 144 ≤ 150
from the unit, yet `update` leaves it invisible (the square window starts at
tile 1), while tile `(1, 0)` is visible. -/
theorem c5_counterexample_tile_in_radius_not_revealed :
    (fow_update fogInit [(160, 16)] []).visible 0 0 = false ∧
    dist2 (16, 16) (160, 16) ≤ UNIT_EXPLORATION_RADIUS ^ 2 ∧
    (fow_update fogInit [(160, 16)] []).visible 1 0 = true :=
  ⟨rfl, by decide, rfl⟩

/-- C3 (amended): when the production timer fires for a queued Infantry while
no living Barracks exists, `Headquarters.update` has already popped the item,
so the spawn is abandoned, not deferred: the item is silently discarded from
the queue, no iron is refunded, no unit is created, and the `return` skips the
timer reset, leaving the timer at its expired value.  (The same code path
handles Tank/Harvester with no WarFactory.)  Stated for a non-zero timer so
the initialization step is inert. -/
theorem c3_missing_support_discards_item (s : GameState) (hq : Building)
    (rest : List ProdItem)
    (hqueue : hq.queue = ProdItem.unit .infantry :: rest)
    (hnz : hq.timer.isZero = false)
    (hfire : Q.le (hq.timer.sub (hqTimerDecrement (hqPowered s hq))) Q.zero)
    (hnob : (s.teamBuildings hq.team).filter
        (fun b => b.kind == .barracks && decide (0 < b.health)) = []) :
    hq_production s hq =
      s.setBuilding hq.id
        { hq with
          powerOutput := hq_power_output (s.teamBuildings hq.team),
          powerUsage := hq_power_usage hq.id (s.teamRoster hq.team)
            (s.teamBuildings hq.team),
          queue := rest,
          timer := hq.timer.sub (hqTimerDecrement (hqPowered s hq)) } := by
  unfold hq_production
  simp only [hqueue, hnz, Bool.false_and, Bool.false_eq_true, if_false]
  rw [if_pos hfire, hnob]
  rfl

/-- C3 witness: the amended theorem applied to the concrete state `c3s`
(queued Infantry, timer 1, powered, a war factory but no barracks). -/
theorem c3_missing_support_discards_item_witness :
    hq_production c3s c3hq =
      c3s.setBuilding c3hq.id
        { c3hq with
          powerOutput := hq_power_output (c3s.teamBuildings c3hq.team),
          powerUsage := hq_power_usage c3hq.id (c3s.teamRoster c3hq.team)
            (c3s.teamBuildings c3hq.team),
          queue := [],
          timer := c3hq.timer.sub (hqTimerDecrement (hqPowered c3s c3hq)) } :=
  c3_missing_support_discards_item c3s c3hq [] rfl (by decide) (by decide)
    (by decide)

/-- C3 counterexample: the claim as stated — the item remains at the head of
the queue — fails on `c3s`: after the update the queue is empty (not
`[Infantry]`), while indeed no unit is created and no iron refunded. -/
theorem c3_counterexample_item_discarded :
    ((hq_production c3s c3hq).buildings.head?.map Building.queue = some []) ∧
    ¬((hq_production c3s c3hq).buildings.head?.map Building.queue =
        some [ProdItem.unit .infantry]) ∧
    (hq_production c3s c3hq).units = c3s.units ∧
    ((hq_production c3s c3hq).buildings.head?.map Building.iron =
      some c3hq.iron) :=
  ⟨rfl, by decide, rfl, rfl⟩

/-- Movement never touches `target_unit`. -/
theorem stepToward_targetUnit (u : GameUnit) (t : Int × Int) :
    (u.stepToward t).targetUnit = u.targetUnit := by
  simp only [GameUnit.stepToward]
  split <;> rfl

/-- Movement never changes the unit class. -/
theorem stepToward_kind (u : GameUnit) (t : Int × Int) :
    (u.stepToward t).kind = u.kind := by
  simp only [GameUnit.stepToward]
  split <;> rfl

theorem move_toward_targetUnit (s : GameState) (u : GameUnit) :
    (move_toward s u).targetUnit = u.targetUnit := by
  simp only [move_toward]
  split
  · split
    · split <;> simp [stepToward_targetUnit]
    · rfl
  · split
    · exact stepToward_targetUnit ..
    · split
      · exact stepToward_targetUnit ..
      · rfl

theorem move_toward_kind (s : GameState) (u : GameUnit) :
    (move_toward s u).kind = u.kind := by
  simp only [move_toward]
  split
  · split
    · split <;> simp [stepToward_kind]
    · rfl
  · split
    · exact stepToward_kind ..
    · split
      · exact stepToward_kind ..
      · rfl

theorem gameObjectUpd_targetUnit (s : GameState) (u : GameUnit) :
    (gameObjectUpd s u).targetUnit = u.targetUnit := by
  simp only [gameObjectUpd]
  split <;> simp [move_toward_targetUnit]

theorem gameObjectUpd_kind (s : GameState) (u : GameUnit) :
    (gameObjectUpd s u).kind = u.kind := by
  simp only [gameObjectUpd]
  split <;> simp [move_toward_kind]

/-- C9: for a Tank (resp. Infantry) pursuing a living `target_unit`, the
per-tick update (`GameObject.update` movement followed by the retargeting
tail of `Tank.update`/`Infantry.update`) clears both `target` and
`target_unit` whenever the post-movement distance to the target exceeds the
class's `UNIT_TARGETING_RANGE` of 250 (resp. 200) pixels, and otherwise
re-aims `target` at the target's current position; the final conjunct ties
this composition to the unit's dispatch in the main loop. -/
theorem c9_leash_clears_target_beyond_range (s : GameState) (uid : Nat)
    (u : GameUnit) (tid : Nat) (v : ObjView)
    (hfind : s.units.find? (fun x => x.id == uid) = some u)
    (hk : u.kind = .tank ∨ u.kind = .infantry)
    (ht : u.targetUnit = some tid)
    (hv : s.objView tid = some v)
    (halive : 0 < v.health) :
    (dist2 (gameObjectUpd s u).pos v.pos > u.kind.targetingRange ^ 2 →
      (tankInfRetarget s (gameObjectUpd s u)).target = none ∧
      (tankInfRetarget s (gameObjectUpd s u)).targetUnit = none) ∧
    (dist2 (gameObjectUpd s u).pos v.pos ≤ u.kind.targetingRange ^ 2 →
      (tankInfRetarget s (gameObjectUpd s u)).target = some v.pos ∧
      (tankInfRetarget s (gameObjectUpd s u)).targetUnit = some tid) ∧
    unitStep s uid = some (s.setUnit uid (tankInfRetarget s (gameObjectUpd s u))) := by
  have htu : (gameObjectUpd s u).targetUnit = some tid := by
    rw [gameObjectUpd_targetUnit, ht]
  have hkind : (gameObjectUpd s u).kind = u.kind := gameObjectUpd_kind s u
  refine ⟨?_, ?_, ?_⟩
  · intro hgt
    unfold tankInfRetarget
    rw [htu]
    dsimp only
    rw [hv]
    dsimp only
    rw [if_pos halive, hkind, if_neg (not_le.mpr hgt)]
    exact ⟨rfl, rfl⟩
  · intro hle
    unfold tankInfRetarget
    rw [htu]
    dsimp only
    rw [hv]
    dsimp only
    rw [if_pos halive, hkind, if_pos hle]
    exact ⟨rfl, rfl⟩
  · unfold unitStep
    rw [hfind]
    dsimp only
    rcases hk with hk | hk <;> rw [hk]

/-- C9 witness: the theorem applied to the tank `c9tank`, 400 pixels from its
living target — both references are cleared — and to `c9near`, inside the
250-pixel leash — the aim is refreshed. -/
theorem c9_leash_clears_target_beyond_range_witness :
    ((tankInfRetarget c9s (gameObjectUpd c9s c9tank)).target = none ∧
      (tankInfRetarget c9s (gameObjectUpd c9s c9tank)).targetUnit = none) ∧
    ((tankInfRetarget c9s (gameObjectUpd c9s c9near)).target =
        some c9target.view.pos ∧
      (tankInfRetarget c9s (gameObjectUpd c9s c9near)).targetUnit = some 50) :=
  ⟨(c9_leash_clears_target_beyond_range c9s 40 c9tank 50 c9target.view rfl
      (Or.inl rfl) rfl rfl (by decide)).1 (by decide),
   (c9_leash_clears_target_beyond_range c9s 41 c9near 50 c9target.view rfl
      (Or.inl rfl) rfl rfl (by decide)).2.1 (by decide)⟩

/-- Invariant of the fold inside `harvScan`: the result comes from the
accumulator or is an eligible list entry at its true distance, the result can
only shrink the accumulated distance, and no eligible in-range entry is
strictly closer than the result. -/
theorem harvScan_fold (hL : GameUnit) (l : List GameUnit)
    (acc : Option (GameUnit × Int)) :
    (∀ v d, l.foldl (harvScanStep hL) acc = some (v, d) →
      (acc = some (v, d) ∨
        (v ∈ l ∧ v.kind = .infantry ∧ 0 < v.health ∧ d = dist2 hL.pos v.pos ∧
          d < UnitKind.attackRange .harvester ^ 2))) ∧
    (∀ a da, acc = some (a, da) →
      ∃ v d, l.foldl (harvScanStep hL) acc = some (v, d) ∧ d ≤ da) ∧
    (∀ v d, l.foldl (harvScanStep hL) acc = some (v, d) →
      ∀ w ∈ l, w.kind = .infantry → 0 < w.health →
        dist2 hL.pos w.pos < UnitKind.attackRange .harvester ^ 2 →
        ¬ dist2 hL.pos w.pos < d) := by
  induction l generalizing acc with
  | nil =>
    refine ⟨fun v d h => Or.inl h, fun a da h => ⟨a, da, h, le_refl _⟩, ?_⟩
    intro v d _ w hw
    cases hw
  | cons u t ih =>
    have hstep :
        (harvScanStep hL acc u = acc ∧
          (u.kind = .infantry → 0 < u.health →
            dist2 hL.pos u.pos < UnitKind.attackRange .harvester ^ 2 →
            ∃ a da, acc = some (a, da) ∧ da ≤ dist2 hL.pos u.pos)) ∨
        (harvScanStep hL acc u = some (u, dist2 hL.pos u.pos) ∧
          u.kind = .infantry ∧ 0 < u.health ∧
          dist2 hL.pos u.pos < UnitKind.attackRange .harvester ^ 2 ∧
          (∀ a da, acc = some (a, da) → dist2 hL.pos u.pos ≤ da)) := by
      unfold harvScanStep
      by_cases h1 : u.kind = .infantry ∧ 0 < u.health
      · rw [if_pos (by simp [h1.1, h1.2])]
        by_cases h2 : dist2 hL.pos u.pos < UnitKind.attackRange .harvester ^ 2
        · cases acc with
          | none =>
            right
            exact ⟨by simp [h2], h1.1, h1.2, h2, by simp⟩
          | some pr =>
            by_cases h3 : dist2 hL.pos u.pos < pr.2
            · right
              refine ⟨by simp [h2, h3], h1.1, h1.2, h2, ?_⟩
              intro a da h
              cases h
              omega
            · left
              refine ⟨by simp [h3], ?_⟩
              intro _ _ _
              exact ⟨pr.1, pr.2, by simp, by omega⟩
        · left
          refine ⟨by simp [h2], ?_⟩
          intro _ _ h
          exact absurd h h2
      · left
        have : (u.kind == UnitKind.infantry && decide (0 < u.health)) = false := by
          rcases Decidable.not_and_iff_or_not.mp h1 with h | h <;> simp [h]
        refine ⟨by rw [if_neg (by simp [this])], ?_⟩
        intro hk hh
        exact absurd ⟨hk, hh⟩ h1
    obtain ⟨ih1, ih2, ih3⟩ := ih (harvScanStep hL acc u)
    simp only [List.foldl_cons]
    refine ⟨?_, ?_, ?_⟩
    · intro v d hr
      rcases ih1 v d hr with hacc | hmem
      · rcases hstep with ⟨heq, _⟩ | ⟨heq, hk, hh, hrange, _⟩
        · rw [heq] at hacc
          exact Or.inl hacc
        · rw [heq] at hacc
          injection hacc with hacc
          have huv : u = v := congrArg Prod.fst hacc
          have hdd : dist2 hL.pos u.pos = d := congrArg Prod.snd hacc
          subst huv
          exact Or.inr ⟨List.mem_cons_self .., hk, hh, hdd.symm, by omega⟩
      · exact Or.inr ⟨List.mem_cons_of_mem _ hmem.1, hmem.2⟩
    · intro a da hacc
      rcases hstep with ⟨heq, _⟩ | ⟨heq, _, _, _, hmin⟩
      · exact ih2 a da (heq.trans hacc)
      · obtain ⟨v, d, hr, hd⟩ := ih2 u (dist2 hL.pos u.pos) heq
        exact ⟨v, d, hr, le_trans hd (hmin a da hacc)⟩
    · intro v d hr w hw hk hh hrange
      rcases List.mem_cons.mp hw with hwu | hwt
      · subst hwu
        rcases hstep with ⟨heq, himp⟩ | ⟨heq, _, _, _, _⟩
        · obtain ⟨a, da, hacc, hda⟩ := himp hk hh hrange
          obtain ⟨v', d', hr', hd'⟩ := ih2 a da (heq.trans hacc)
          rw [hr] at hr'
          injection hr' with hr'
          have hdd : d = d' := congrArg Prod.snd hr'
          omega
        · obtain ⟨v', d', hr', hd'⟩ := ih2 w (dist2 hL.pos w.pos) heq
          rw [hr] at hr'
          injection hr' with hr'
          have hdd : d = d' := congrArg Prod.snd hr'
          omega
      · exact ih3 v d hr w hwt hk hh hrange

/-- What `harvScan` returning a victim means: a living enemy Infantry
strictly inside the harvester's attack range, at its true distance, with no
eligible enemy infantry strictly closer. -/
theorem harvScan_spec (s : GameState) (hL : GameUnit) (v : GameUnit) (d : Int)
    (hs : harvScan s hL = some (v, d)) :
    v ∈ s.teamRoster hL.team.enemy ∧ v.kind = .infantry ∧ 0 < v.health ∧
    d = dist2 hL.pos v.pos ∧ d < UnitKind.attackRange .harvester ^ 2 ∧
    ∀ w ∈ s.teamRoster hL.team.enemy, w.kind = .infantry → 0 < w.health →
      ¬ dist2 hL.pos w.pos < d := by
  obtain ⟨h1, _, h3⟩ := harvScan_fold hL (s.teamRoster hL.team.enemy) none
  rcases h1 v d hs with h | h
  · cases h
  refine ⟨h.1, h.2.1, h.2.2.1, h.2.2.2.1, h.2.2.2.2, ?_⟩
  intro w hw hk hh hlt
  by_cases hr : dist2 hL.pos w.pos < UnitKind.attackRange .harvester ^ 2
  · exact h3 v d hs w hw hk hh hr hlt
  · have := h.2.2.2.2
    omega

/-- C10: the harvester's defensive melee attack only ever targets enemy
Infantry.  When its scan picks a victim, the victim is a living enemy
Infantry strictly inside the 50-pixel attack range with no eligible enemy
infantry strictly closer; buildings are untouched; every unit whose id
differs from the victim's keeps health and roster membership (so tanks,
harvesters and friendly units are never damaged); and the victim loses
exactly `attack_damage` health, being killed exactly when that leaves it at
`health <= 0`. -/
theorem c10_harvester_attacks_only_infantry (s : GameState) (uid : Nat)
    (u v : GameUnit) (d : Int)
    (hfind : s.units.find? (fun x => x.id == uid) = some u)
    (hcd : u.cooldown = 0)
    (hscan : harvScan s u = some (v, d))
    (hnodup : (s.units.map GameUnit.id).Nodup)
    (hdisj : ∀ b ∈ s.buildings, ∀ w ∈ s.units, b.id ≠ w.id) :
    (v.kind = .infantry ∧ v.team = u.team.enemy ∧ 0 < v.health ∧
      v.inRoster = true ∧
      dist2 u.pos v.pos < UnitKind.attackRange .harvester ^ 2 ∧
      (∀ w ∈ s.teamRoster u.team.enemy, w.kind = .infantry → 0 < w.health →
        ¬ dist2 u.pos w.pos < dist2 u.pos v.pos)) ∧
    (harvesterCombat s uid).buildings = s.buildings ∧
    (∀ w ∈ s.units, w.kind ≠ .infantry → w.id ≠ v.id) ∧
    List.Forall₂
      (fun w w' =>
        w'.id = w.id ∧ w'.kind = w.kind ∧ w'.team = w.team ∧
        (w.id ≠ v.id → w'.health = w.health ∧ w'.inRoster = w.inRoster) ∧
        (w.id = v.id →
          w'.health = w.health - u.attackDamage ∧
          w'.inRoster = (w.inRoster && !(w.health - u.attackDamage ≤ 0))))
      s.units (harvesterCombat s uid).units := by
  obtain ⟨hmemR, hkv, hhv, hdv, hrange, hmin⟩ := harvScan_spec s u v d hscan
  obtain ⟨hvmem, hcond⟩ := List.mem_filter.mp hmemR
  have hteam : v.team = u.team.enemy := by
    have := (Bool.and_eq_true _ _).mp hcond
    exact of_decide_eq_true this.2
  have hros : v.inRoster = true := by
    have := (Bool.and_eq_true _ _).mp hcond
    exact this.1
  have hres : harvesterCombat s uid =
      (s.hitEntity v.id u.attackDamage false).mapUnit uid
        (fun w => { w with cooldown := UnitKind.attackCooldownPeriod .harvester }) := by
    unfold harvesterCombat
    rw [hfind]
    dsimp only
    rw [if_pos hcd, hscan]
  refine ⟨⟨hkv, hteam, hhv, hros, hdv ▸ hrange, ?_⟩, ?_, ?_, ?_⟩
  · intro w hw hk hh
    have := hmin w hw hk hh
    omega
  · rw [hres]
    show s.buildings.map _ = s.buildings
    refine (List.map_congr_left ?_).trans (List.map_id _)
    intro b hb
    rw [if_neg (hdisj b hb v hvmem)]
    rfl
  · intro w hw hk heq
    have := List.inj_on_of_nodup_map hnodup hw hvmem heq
    rw [this] at hk
    exact hk hkv
  · rw [hres]
    show List.Forall₂ _ s.units ((s.units.map _).map _)
    rw [List.map_map, List.forall₂_map_right_iff, List.forall₂_same]
    intro w _
    simp only [Function.comp_apply]
    split_ifs with h1 h2 h2 <;>
      exact ⟨rfl, rfl, rfl,
        by first
          | exact fun h => absurd h1 h
          | exact fun _ => ⟨rfl, rfl⟩,
        by first
          | exact fun _ => ⟨rfl, rfl⟩
          | exact fun h => absurd h h1⟩

/-- C10 witness: the theorem applied to `c10s`, where the scan returns the
in-range enemy infantry `c10inf` (distance 30, squared 900) and ignores the
closer enemy tank. -/
theorem c10_harvester_attacks_only_infantry_witness :
    c10inf.kind = .infantry ∧
    (harvesterCombat c10s 80).buildings = c10s.buildings := by
  have h := c10_harvester_attacks_only_infantry c10s 80 c10harv c10inf 900 rfl rfl
    rfl (by decide) (by decide)
  exact ⟨h.1.1, h.2.1⟩

/-- C6: `AI.determine_state` classifies by the fixed priority chain
BROKE → ATTACKED → THREATENED → AGGRESSIVE → BUILD_UP: BROKE on low iron or
low average income, else ATTACKED on headquarters health below 60% of max or
an active defensive cooldown, else THREATENED when some enemy unit is within
the 500-pixel threat radius of the AI headquarters, else AGGRESSIVE on at
least two completed waves or an enemy base size above the threshold, else
BUILD_UP; the income estimate is recomputed from the harvesters. -/
theorem c6_determine_state_priority_chain (ai : AIState) (hq : Building)
    (fu eu : List GameUnit) (eb : List Building) :
    ((determine_state ai hq fu eu eb).state = "BROKE" ↔
      (hq.iron < 300 ∨ Q.lt (aiIncome fu) (Q.ofInt 50))) ∧
    ((determine_state ai hq fu eu eb).state = "ATTACKED" ↔
      (¬(hq.iron < 300 ∨ Q.lt (aiIncome fu) (Q.ofInt 50)) ∧
        (Q.lt (Q.ofInt hq.health) ((Q.ofInt hq.maxHealth).mul ⟨6, 10⟩) ∨
          0 < ai.defenseCooldown))) ∧
    ((determine_state ai hq fu eu eb).state = "THREATENED" ↔
      (¬(hq.iron < 300 ∨ Q.lt (aiIncome fu) (Q.ofInt 50)) ∧
        ¬(Q.lt (Q.ofInt hq.health) ((Q.ofInt hq.maxHealth).mul ⟨6, 10⟩) ∨
          0 < ai.defenseCooldown) ∧
        ∃ e ∈ eu, dist2 e.pos hq.pos < AI_THREAT_RANGE ^ 2)) ∧
    ((determine_state ai hq fu eu eb).state = "AGGRESSIVE" ↔
      (¬(hq.iron < 300 ∨ Q.lt (aiIncome fu) (Q.ofInt 50)) ∧
        ¬(Q.lt (Q.ofInt hq.health) ((Q.ofInt hq.maxHealth).mul ⟨6, 10⟩) ∨
          0 < ai.defenseCooldown) ∧
        ¬(∃ e ∈ eu, dist2 e.pos hq.pos < AI_THREAT_RANGE ^ 2) ∧
        (2 ≤ ai.waveNumber ∨ 8 < (eu.length : Int) + (eb.length : Int)))) ∧
    ((determine_state ai hq fu eu eb).state = "BUILD_UP" ↔
      (¬(hq.iron < 300 ∨ Q.lt (aiIncome fu) (Q.ofInt 50)) ∧
        ¬(Q.lt (Q.ofInt hq.health) ((Q.ofInt hq.maxHealth).mul ⟨6, 10⟩) ∨
          0 < ai.defenseCooldown) ∧
        ¬(∃ e ∈ eu, dist2 e.pos hq.pos < AI_THREAT_RANGE ^ 2) ∧
        ¬(2 ≤ ai.waveNumber ∨ 8 < (eu.length : Int) + (eb.length : Int)))) ∧
    (determine_state ai hq fu eu eb).ironIncomeRate = aiIncome fu := by
  have hany : (eu.any (fun e => decide (dist2 e.pos hq.pos < AI_THREAT_RANGE ^ 2)))
      = true ↔ ∃ e ∈ eu, dist2 e.pos hq.pos < AI_THREAT_RANGE ^ 2 := by
    simp [List.any_eq_true]
  unfold determine_state
  dsimp only
  by_cases h1 : hq.iron < 300 ∨ Q.lt (aiIncome fu) (Q.ofInt 50)
  · rw [if_pos h1]
    refine ⟨by simp [h1], ?_, ?_, ?_, ?_, rfl⟩ <;>
      simp only [show ("BROKE" : String) ≠ "ATTACKED" from by decide,
        show ("BROKE" : String) ≠ "THREATENED" from by decide,
        show ("BROKE" : String) ≠ "AGGRESSIVE" from by decide,
        show ("BROKE" : String) ≠ "BUILD_UP" from by decide, h1,
        not_true, false_and, iff_false]
  · rw [if_neg h1]
    by_cases h2 : Q.lt (Q.ofInt hq.health) ((Q.ofInt hq.maxHealth).mul ⟨6, 10⟩) ∨
        0 < ai.defenseCooldown
    · rw [if_pos h2]
      refine ⟨by simp [h1], by simp [h1, h2], ?_, ?_, ?_, rfl⟩ <;>
        simp [show ("ATTACKED" : String) ≠ "THREATENED" from by decide,
          show ("ATTACKED" : String) ≠ "AGGRESSIVE" from by decide,
          show ("ATTACKED" : String) ≠ "BUILD_UP" from by decide, h1, h2]
    · rw [if_neg h2]
      by_cases h3 : (eu.any (fun e => decide (dist2 e.pos hq.pos <
          AI_THREAT_RANGE ^ 2))) = true
      · rw [if_pos h3]
        rw [hany] at h3
        refine ⟨by simp [h1], by simp [h1, h2], by simp [h1, h2, h3], ?_, ?_, rfl⟩ <;>
          simp [show ("THREATENED" : String) ≠ "AGGRESSIVE" from by decide,
            show ("THREATENED" : String) ≠ "BUILD_UP" from by decide, h1, h2, h3]
      · rw [if_neg h3]
        rw [hany] at h3
        by_cases h4 : 2 ≤ ai.waveNumber ∨ 8 < (eu.length : Int) + (eb.length : Int)
        · rw [if_pos h4]
          refine ⟨by simp [h1], by simp [h1, h2], by simp [h1, h2, h3],
            by simp [h1, h2, h3, h4], ?_, rfl⟩
          simp [show ("AGGRESSIVE" : String) ≠ "BUILD_UP" from by decide, h1, h2,
            h3, h4]
        · rw [if_neg h4]
          exact ⟨by simp [h1], by simp [h1, h2], by simp [h1, h2, h3],
            by simp [h1, h2, h3, h4], by simp [h1, h2, h3, h4], rfl⟩

/-- C4 (amended): a projectile that comes within the hit radius of its living
target self-destructs in `Projectile.update` *without dealing damage* (the
flight pass never touches units or buildings), as does a projectile whose
target is no longer alive; damage is applied only by the separate
`handle_projectiles` collision pass, which gives the first living enemy whose
bounding box overlaps the projectile (not necessarily its original target)
exactly the stored damage, kills it at `health <= 0`, destroys the projectile
in the same step — so each projectile deals damage at most once — and does
nothing when no living enemy overlaps. -/
theorem c4_projectile_damage_once (s : GameState) (pid : Nat) (p : Projectile)
    (v : ObjView)
    (hfind : s.projectiles.find? (fun q => q.id == pid) = some p) :
    ((projectilesPhase s).units = s.units ∧
      (projectilesPhase s).buildings = s.buildings) ∧
    (s.refAlive p.targetUnit = false → (projectileUpd s p).inRoster = false) ∧
    (∀ w, s.objView p.targetUnit = some w → 0 < w.health →
      dist2 p.pos w.pos ≤ HIT_RADIUS ^ 2 → (projectileUpd s p).inRoster = false) ∧
    (((s.roster.filter (fun u => u.team != p.team && decide (0 < u.health))).map
          GameUnit.view ++
        (s.brosterAll.filter
          (fun b => b.team != p.team && decide (0 < b.health))).map
          Building.view).find? (fun w => rectsCollideB p.rect w.rect) = some v →
      (v.team ≠ p.team ∧ 0 < v.health ∧ rectsCollide p.rect v.rect) ∧
      List.Forall₂
        (fun w w' => w'.id = w.id ∧
          (w.id ≠ v.id → w'.health = w.health ∧ w'.inRoster = w.inRoster) ∧
          (w.id = v.id → w'.health = w.health - p.damage ∧
            w'.underAttack = true ∧
            w'.inRoster = (w.inRoster && !(w.health - p.damage ≤ 0))))
        s.units (projImpactStep s pid).units ∧
      List.Forall₂
        (fun w w' => w'.id = w.id ∧
          (w.id ≠ v.id → w'.health = w.health ∧ w'.inRoster = w.inRoster) ∧
          (w.id = v.id → w'.health = w.health - p.damage ∧
            w'.underAttack = true ∧
            w'.inRoster = (w.inRoster && !(w.health - p.damage ≤ 0))))
        s.buildings (projImpactStep s pid).buildings ∧
      ∀ q ∈ (projImpactStep s pid).projectiles, q.id = pid → q.inRoster = false) ∧
    (((s.roster.filter (fun u => u.team != p.team && decide (0 < u.health))).map
          GameUnit.view ++
        (s.brosterAll.filter
          (fun b => b.team != p.team && decide (0 < b.health))).map
          Building.view).find? (fun w => rectsCollideB p.rect w.rect) = none →
      projImpactStep s pid = s) := by
  have hstep : projImpactStep s pid =
      (match (((s.roster.filter
          (fun u => u.team != p.team && decide (0 < u.health))).map
            GameUnit.view ++
          (s.brosterAll.filter
            (fun b => b.team != p.team && decide (0 < b.health))).map
            Building.view).find? (fun w => rectsCollideB p.rect w.rect)) with
        | some w => (s.hitEntity w.id p.damage true).killProjectile pid
        | none => s) := by
    unfold projImpactStep
    rw [hfind]
  refine ⟨⟨rfl, rfl⟩, ?_, ?_, ?_, ?_⟩
  · intro hdead
    unfold projectileUpd
    unfold GameState.refAlive at hdead
    cases hov : s.objView p.targetUnit with
    | none => rfl
    | some w =>
      rw [hov] at hdead
      dsimp only at hdead ⊢
      rw [if_neg (of_decide_eq_false hdead)]
  · intro w hov hw hclose
    unfold projectileUpd
    rw [hov]
    dsimp only
    rw [if_pos hw, if_neg (not_lt.mpr hclose)]
  · intro hfound
    have heq := hstep
    rw [hfound] at heq
    dsimp only at heq
    have hvmem := List.mem_of_find?_eq_some hfound
    have hvcol : rectsCollide p.rect v.rect := by
      have hcol0 := List.find?_some hfound
      simp only [rectsCollideB] at hcol0
      exact of_decide_eq_true hcol0
    have hvprops : v.team ≠ p.team ∧ 0 < v.health := by
      rcases List.mem_append.mp hvmem with hmem | hmem <;>
      · obtain ⟨w0, hw0, hweq⟩ := List.mem_map.mp hmem
        obtain ⟨_, hcond⟩ := List.mem_filter.mp hw0
        obtain ⟨hteam, hhealth⟩ := (Bool.and_eq_true _ _).mp hcond
        rw [← hweq]
        exact ⟨by simpa using hteam, by simpa using hhealth⟩
    refine ⟨⟨hvprops.1, hvprops.2, hvcol⟩, ?_, ?_, ?_⟩
    · rw [heq]
      show List.Forall₂ _ s.units (s.units.map _)
      rw [List.forall₂_map_right_iff, List.forall₂_same]
      intro w _
      by_cases hwv : w.id = v.id
      · rw [if_pos hwv]
        exact ⟨rfl, fun h => absurd hwv h, fun _ => ⟨rfl, by simp, rfl⟩⟩
      · rw [if_neg hwv]
        exact ⟨rfl, fun _ => ⟨rfl, rfl⟩, fun h => absurd h hwv⟩
    · rw [heq]
      show List.Forall₂ _ s.buildings (s.buildings.map _)
      rw [List.forall₂_map_right_iff, List.forall₂_same]
      intro w _
      by_cases hwv : w.id = v.id
      · rw [if_pos hwv]
        exact ⟨rfl, fun h => absurd hwv h, fun _ => ⟨rfl, by simp, rfl⟩⟩
      · rw [if_neg hwv]
        exact ⟨rfl, fun _ => ⟨rfl, rfl⟩, fun h => absurd h hwv⟩
    · rw [heq]
      intro q hq hqid
      simp only [GameState.killProjectile, GameState.mapProjectile,
        List.mem_map] at hq
      obtain ⟨q0, _, hq0⟩ := hq
      by_cases hid : q0.id = pid
      · rw [← hq0, if_pos hid]
      · exfalso
        rw [← hq0, if_neg hid] at hqid
        exact hid hqid
  · intro hnone
    have heq := hstep
    rw [hnone] at heq
    exact heq

/-- C4 witness: the theorem applied to `c4s2`, where the projectile overlaps
its living enemy target from 10 pixels away: the collision pass finds a
living overlapping enemy. -/
theorem c4_projectile_damage_once_witness :
    c4target.view.team ≠ c4proj2.team ∧ 0 < c4target.view.health ∧
    rectsCollide c4proj2.rect c4target.view.rect :=
  ((c4_projectile_damage_once c4s2 61 c4proj2 c4target.view rfl).2.2.2.1
    rfl).1

/-- C4 counterexample: the claim as stated — a projectile reaching the hit
radius of its target applies its damage to an overlapping living enemy and is
then destroyed — fails on `c4s`: the projectile sits within `HIT_RADIUS` of
its living, bbox-overlapping target, yet the flight pass destroys it and no
health changes, including through the rest of the tick's collision pass. -/
theorem c4_counterexample_hit_radius_no_damage :
    (projectilesPhase c4s).units = c4s.units ∧
    (projectilesPhase c4s).projectiles.all (fun q => !q.inRoster) = true ∧
    dist2 c4proj.pos c4target.pos ≤ HIT_RADIUS ^ 2 ∧
    0 < c4target.health ∧
    rectsCollide c4proj.rect c4target.rect ∧
    (handle_projectiles (projectilesPhase c4s)).units = c4s.units :=
  ⟨rfl, rfl, by decide, by decide, by decide, rfl⟩

/-- C6 witness: the chain applied to a rich headquarters with no harvesters —
income 0 is below the threshold, so the state is BROKE. -/
theorem c6_determine_state_priority_chain_witness :
    (determine_state exAI exHQnod [] [] []).state = "BROKE" :=
  (c6_determine_state_priority_chain exAI exHQnod [] [] []).1.mpr
    (Or.inr (by decide))

/-- The end-of-tick clearing loop resets the flag of every unit still in the
group. -/
theorem clear_under_attack_units (s : GameState) :
    ∀ u ∈ (clear_under_attack s).units, u.inRoster = true → u.underAttack = false := by
  intro u hu
  simp only [clear_under_attack, List.mem_map] at hu
  obtain ⟨w, _, hw⟩ := hu
  by_cases h : w.inRoster
  · rw [← hw, if_pos h]
    intro _
    rfl
  · rw [← hw, if_neg h]
    intro hcontr
    exact absurd hcontr h

/-- C8 (amended): at the end of every (non-crashing) simulation tick the
`under_attack` flag is cleared on every unit still in the rosters, but the
clearing loop `for unit in global_units` never touches buildings, whose flag
therefore persists once set (see the counterexample). -/
theorem c8_units_cleared_buildings_untouched (fog : Fog) (rng : Rng)
    (ai : AIState) (s : GameState) (out : GameState × AIState × Fog)
    (ht : tick fog rng ai s = some out) :
    (∀ u ∈ out.1.units, u.inRoster = true → u.underAttack = false) ∧
    (clear_under_attack s).buildings = s.buildings := by
  refine ⟨?_, rfl⟩
  unfold tick at ht
  cases hu : unitsPhase s with
  | none =>
    rw [hu] at ht
    cases ht
  | some s1 =>
    rw [hu] at ht
    dsimp only at ht
    injection ht with ht
    rw [← ht]
    exact clear_under_attack_units _

/-- C8 witness: the theorem applied to the concrete tick on `c8s`. -/
theorem c8_units_cleared_buildings_untouched_witness :
    (∀ u ∈ c8out.1.units, u.inRoster = true → u.underAttack = false) ∧
    (clear_under_attack c8s).buildings = c8s.buildings :=
  c8_units_cleared_buildings_untouched fogInit exRng exAI c8s c8out rfl

/-- C8 counterexample: the claim as stated — the transient flag is cleared on
every entity, buildings included — fails: ticking `c8s`, whose GDI
headquarters and infantry both carry `under_attack = True`, clears the unit's
flag but leaves the building's set. -/
theorem c8_counterexample_building_flag_persists :
    ((tick fogInit exRng exAI c8s).map
        (fun out => (out.1.buildings.map Building.underAttack,
                     out.1.units.map GameUnit.underAttack))) =
      some ([true, false], [false]) :=
  rfl

/-! ### Preservation toolkit for the C1 health invariant -/

/-- A state with the same rosters satisfies the same invariant. -/
theorem allPos_of_eq {s s' : GameState} (h1 : s'.units = s.units)
    (h2 : s'.buildings = s.buildings) (h : AllPositive s) : AllPositive s' :=
  ⟨h1 ▸ h.1, h2 ▸ h.2⟩

/-- Fold preservation. -/
theorem foldl_preserve {σ α : Type _} (step : σ → α → σ) (P : σ → Prop)
    (hstep : ∀ s a, P s → P (step s a)) :
    ∀ (l : List α) (s : σ), P s → P (l.foldl step s) := by
  intro l
  induction l with
  | nil => exact fun s h => h
  | cons a t ih => exact fun s h => ih (step s a) (hstep s a h)

/-- Fold preservation in the `Option` monad. -/
theorem foldlM_preserve {σ α : Type _} (step : σ → α → Option σ) (P : σ → Prop)
    (hstep : ∀ s a s', step s a = some s' → P s → P s') :
    ∀ (l : List α) (s s' : σ), List.foldlM step s l = some s' → P s → P s' := by
  intro l
  induction l with
  | nil =>
    intro s s' h hp
    cases h
    exact hp
  | cons a t ih =>
    intro s s' h hp
    rw [List.foldlM_cons] at h
    cases hstep1 : step s a with
    | none => rw [hstep1] at h; cases h
    | some s1 =>
      rw [hstep1] at h
      exact ih s1 s' h (hstep s a s1 hstep1 hp)

/-- Rewriting the units with this id preserves the invariant as long as the
rewrite keeps roster members healthy. -/
theorem allPos_mapUnit (s : GameState) (eid : Nat) (f : GameUnit → GameUnit)
    (hf : ∀ u ∈ s.units, (u.inRoster = true → 0 < u.health) →
      (f u).inRoster = true → 0 < (f u).health)
    (h : AllPositive s) : AllPositive (s.mapUnit eid f) := by
  refine ⟨?_, h.2⟩
  intro u hu hr
  simp only [GameState.mapUnit, List.mem_map] at hu
  obtain ⟨w, hw, hweq⟩ := hu
  by_cases hid : w.id = eid
  · rw [← hweq, if_pos hid] at hr ⊢
    exact hf w hw (h.1 w hw) hr
  · rw [← hweq, if_neg hid] at hr ⊢
    exact h.1 w hw hr

/-- Building counterpart of `allPos_mapUnit`. -/
theorem allPos_mapBuilding (s : GameState) (eid : Nat) (f : Building → Building)
    (hf : ∀ b ∈ s.buildings, (b.inRoster = true → 0 < b.health) →
      (f b).inRoster = true → 0 < (f b).health)
    (h : AllPositive s) : AllPositive (s.mapBuilding eid f) := by
  refine ⟨h.1, ?_⟩
  intro b hb hr
  simp only [GameState.mapBuilding, List.mem_map] at hb
  obtain ⟨w, hw, hweq⟩ := hb
  by_cases hid : w.id = eid
  · rw [← hweq, if_pos hid] at hr ⊢
    exact hf w hw (h.2 w hw) hr
  · rw [← hweq, if_neg hid] at hr ⊢
    exact h.2 w hw hr

/-- Replacing a unit by a healthy-or-killed record preserves the invariant. -/
theorem allPos_setUnit (s : GameState) (uid : Nat) (v : GameUnit)
    (hv : v.inRoster = true → 0 < v.health) (h : AllPositive s) :
    AllPositive (s.setUnit uid v) :=
  allPos_mapUnit s uid _ (fun _ _ _ => hv) h

/-- Replacing a building by a healthy-or-killed record preserves the
invariant. -/
theorem allPos_setBuilding (s : GameState) (bid : Nat) (v : Building)
    (hv : v.inRoster = true → 0 < v.health) (h : AllPositive s) :
    AllPositive (s.setBuilding bid v) :=
  allPos_mapBuilding s bid _ (fun _ _ _ => hv) h

/-- Damage application keeps the invariant: the damaged entity is removed from
the roster exactly when its health drops to zero or below. -/
theorem allPos_hitEntity (s : GameState) (eid : Nat) (dmg : Int) (ua : Bool)
    (h : AllPositive s) : AllPositive (s.hitEntity eid dmg ua) := by
  constructor
  · intro u hu hr
    simp only [GameState.hitEntity, List.mem_map] at hu
    obtain ⟨w, hw, hweq⟩ := hu
    by_cases hid : w.id = eid
    · rw [← hweq, if_pos hid] at hr ⊢
      simp only [Bool.and_eq_true, Bool.not_eq_true'] at hr
      simp only [decide_eq_false_iff_not, not_le] at hr
      exact hr.2
    · rw [← hweq, if_neg hid] at hr ⊢
      exact h.1 w hw hr
  · intro b hb hr
    simp only [GameState.hitEntity, List.mem_map] at hb
    obtain ⟨w, hw, hweq⟩ := hb
    by_cases hid : w.id = eid
    · rw [← hweq, if_pos hid] at hr ⊢
      simp only [Bool.and_eq_true, Bool.not_eq_true'] at hr
      simp only [decide_eq_false_iff_not, not_le] at hr
      exact hr.2
    · rw [← hweq, if_neg hid] at hr ⊢
      exact h.2 w hw hr

/-- Appending healthy units preserves the invariant (other non-roster fields
may change too). -/
theorem allPos_units_append {s s' : GameState} (l : List GameUnit)
    (hu : s'.units = s.units ++ l) (hb : s'.buildings = s.buildings)
    (hl : ∀ u ∈ l, u.inRoster = true → 0 < u.health)
    (h : AllPositive s) : AllPositive s' := by
  refine ⟨?_, hb ▸ h.2⟩
  rw [hu]
  intro u hmem
  rcases List.mem_append.mp hmem with hm | hm
  · exact h.1 u hm
  · exact hl u hm

/-- Appending healthy buildings preserves the invariant. -/
theorem allPos_buildings_append {s s' : GameState} (l : List Building)
    (hu : s'.units = s.units) (hb : s'.buildings = s.buildings ++ l)
    (hl : ∀ b ∈ l, b.inRoster = true → 0 < b.health)
    (h : AllPositive s) : AllPositive s' := by
  refine ⟨hu ▸ h.1, ?_⟩
  rw [hb]
  intro b hmem
  rcases List.mem_append.mp hmem with hm | hm
  · exact h.2 b hm
  · exact hl b hm

/-- A freshly spawned unit has positive health. -/
theorem mkUnit_health_pos (uid : Nat) (k : UnitKind) (t : Team)
    (c : Int × Int) (hqRef : Nat) : 0 < (mkUnit uid k t c hqRef).health := by
  cases k <;> cases t <;> norm_num [mkUnit, UnitKind.spawnHealth]

/-- A freshly placed building has positive health. -/
theorem mkBuilding_health_pos (bid : Nat) (k : BuildingKind) (t : Team)
    (c : Int × Int) : 0 < (mkBuilding bid k t c).health := by
  cases k <;> norm_num [mkBuilding, BuildingKind.maxHealth]

theorem stepToward_health (u : GameUnit) (t : Int × Int) :
    (u.stepToward t).health = u.health := by
  simp only [GameUnit.stepToward]
  split <;> rfl

theorem stepToward_inRoster (u : GameUnit) (t : Int × Int) :
    (u.stepToward t).inRoster = u.inRoster := by
  simp only [GameUnit.stepToward]
  split <;> rfl

theorem move_toward_health (s : GameState) (u : GameUnit) :
    (move_toward s u).health = u.health := by
  simp only [move_toward]
  split
  · split
    · split <;> simp [stepToward_health]
    · rfl
  · split
    · exact stepToward_health ..
    · split
      · exact stepToward_health ..
      · rfl

theorem move_toward_inRoster (s : GameState) (u : GameUnit) :
    (move_toward s u).inRoster = u.inRoster := by
  simp only [move_toward]
  split
  · split
    · split <;> simp [stepToward_inRoster]
    · rfl
  · split
    · exact stepToward_inRoster ..
    · split
      · exact stepToward_inRoster ..
      · rfl

theorem gameObjectUpd_health (s : GameState) (u : GameUnit) :
    (gameObjectUpd s u).health = u.health := by
  simp only [gameObjectUpd]
  split <;> simp [move_toward_health]

theorem gameObjectUpd_inRoster (s : GameState) (u : GameUnit) :
    (gameObjectUpd s u).inRoster = u.inRoster := by
  simp only [gameObjectUpd]
  split <;> simp [move_toward_inRoster]

theorem tankInfRetarget_health (s : GameState) (u : GameUnit) :
    (tankInfRetarget s u).health = u.health := by
  unfold tankInfRetarget
  split
  · split
    · split
      · split <;> rfl
      · rfl
    · rfl
  · rfl

theorem tankInfRetarget_inRoster (s : GameState) (u : GameUnit) :
    (tankInfRetarget s u).inRoster = u.inRoster := by
  unfold tankInfRetarget
  split
  · split
    · split
      · split <;> rfl
      · rfl
    · rfl
  · rfl

/-- The harvester melee attack preserves the invariant. -/
theorem harvesterCombat_allPos (s : GameState) (uid : Nat) (h : AllPositive s) :
    AllPositive (harvesterCombat s uid) := by
  unfold harvesterCombat
  cases hf : s.units.find? (fun x => x.id == uid) with
  | none => exact h
  | some u =>
    dsimp only
    split
    · cases hs : harvScan s u with
      | none => exact h
      | some pr =>
        dsimp only
        exact allPos_mapUnit _ _ _ (fun w _ hw hr => hw hr)
          (allPos_hitEntity s pr.1.id u.attackDamage false h)
    · exact h

/-- The harvester economy machine preserves the invariant. -/
theorem harvesterEcon_allPos (s : GameState) (uid : Nat) (s' : GameState)
    (hrun : harvesterEcon s uid = some s') (h : AllPositive s) :
    AllPositive s' := by
  unfold harvesterEcon at hrun
  cases hf : s.units.find? (fun x => x.id == uid) with
  | none =>
    rw [hf] at hrun
    cases hrun
    exact h
  | some u =>
    have humem : u ∈ s.units := List.mem_of_find?_eq_some hf
    have hu : u.inRoster = true → 0 < u.health := h.1 u humem
    rw [hf] at hrun
    dsimp only at hrun
    cases hst : u.hstate
    all_goals rw [hst] at hrun; dsimp only at hrun
    · -- movingToField
      split at hrun
      · cases hrun
      · split at hrun
        · cases hrun
          split
          · exact allPos_setUnit s uid _ (fun hr => hu hr) h
          · exact allPos_setUnit s uid _ (fun hr => hu hr) h
        · cases hrun
          exact h
    · -- harvesting
      split at hrun
      · cases hrun
        exact allPos_setUnit s uid _ (fun hr => hu hr) h
      · split at hrun
        · cases hrun
        · split at hrun
          · cases hrun
          · split at hrun
            · cases hrun
            · cases hrun
              refine allPos_setUnit _ uid _ (fun hr => hu hr) ?_
              exact allPos_of_eq rfl rfl h
    · -- returningToHQ
      split at hrun
      · cases hrun
      · split at hrun
        · cases hrun
          refine allPos_setUnit _ uid _ (fun hr => hu hr) ?_
          exact allPos_mapBuilding s _ _ (fun b _ hb hr => hb hr) h
        · cases hrun
          exact h

/-- One unit's per-tick update preserves the invariant. -/
theorem unitStep_allPos (s : GameState) (uid : Nat) (s' : GameState)
    (hrun : unitStep s uid = some s') (h : AllPositive s) : AllPositive s' := by
  unfold unitStep at hrun
  cases hf : s.units.find? (fun x => x.id == uid) with
  | none =>
    rw [hf] at hrun
    cases hrun
    exact h
  | some u =>
    have humem : u ∈ s.units := List.mem_of_find?_eq_some hf
    have hu : u.inRoster = true → 0 < u.health := h.1 u humem
    rw [hf] at hrun
    dsimp only at hrun
    have hg : (gameObjectUpd s u).inRoster = true → 0 < (gameObjectUpd s u).health := by
      rw [gameObjectUpd_health, gameObjectUpd_inRoster]
      exact hu
    cases hk : u.kind
    all_goals rw [hk] at hrun; dsimp only at hrun
    · -- infantry
      cases hrun
      refine allPos_setUnit s uid _ ?_ h
      rw [tankInfRetarget_health, tankInfRetarget_inRoster]
      exact hg
    · -- tank
      cases hrun
      refine allPos_setUnit s uid _ ?_ h
      rw [tankInfRetarget_health, tankInfRetarget_inRoster]
      exact hg
    · -- harvester
      exact harvesterEcon_allPos _ uid s' hrun
        (harvesterCombat_allPos _ uid (allPos_setUnit s uid _ hg h))

/-- The whole unit-update phase preserves the invariant. -/
theorem unitsPhase_allPos (s s' : GameState) (hrun : unitsPhase s = some s')
    (h : AllPositive s) : AllPositive s' := by
  unfold unitsPhase at hrun
  exact foldlM_preserve unitStep AllPositive
    (fun s a s' hsa hp => unitStep_allPos s a s' hsa hp)
    (s.roster.map (·.id)) s s' hrun h

/-- The zero-health kill check of `Building.update` leaves a record that is
outside the roster or has positive health. -/
theorem base_killcheck_pos (b : Building) :
    (if (building_base_update b).2 then
        { (building_base_update b).1 with inRoster := false }
      else (building_base_update b).1).inRoster = true →
    0 < (if (building_base_update b).2 then
        { (building_base_update b).1 with inRoster := false }
      else (building_base_update b).1).health := by
  cases h2 : (building_base_update b).2
  · rw [if_neg Bool.false_ne_true]
    intro _
    have hd : decide ((building_base_update b).1.health ≤ 0) = false := h2
    have := of_decide_eq_false hd
    omega
  · rw [if_pos rfl]
    intro hr
    exact absurd hr Bool.false_ne_true

/-- The headquarters production tail preserves the invariant. -/
theorem hq_production_allPos (s : GameState) (hq : Building)
    (hhq : hq.inRoster = true → 0 < hq.health) (h : AllPositive s) :
    AllPositive (hq_production s hq) := by
  unfold hq_production
  dsimp only
  repeat' split
  all_goals
    first
      | exact h
      | (refine allPos_setBuilding _ _ _ ?_ h
         (repeat' split) <;> exact hhq)
      | (refine allPos_setBuilding _ _ _ ?hv (allPos_units_append _ rfl rfl ?hl h)
         case hv => (repeat' split) <;> exact hhq
         case hl =>
           intro u hu
           rw [List.mem_singleton] at hu
           subst hu
           intro _
           exact mkUnit_health_pos ..)

/-- The turret firing tail preserves the invariant. -/
theorem turret_fire_allPos (s : GameState) (tr : Building)
    (htr : tr.inRoster = true → 0 < tr.health) (h : AllPositive s) :
    AllPositive (turret_fire s tr) := by
  unfold turret_fire
  dsimp only
  repeat' split
  all_goals
    first
      | exact h
      | (refine allPos_setBuilding _ _ _ ?_ h
         (repeat' split) <;> exact htr)

/-- One building's per-tick update preserves the invariant. -/
theorem buildingStep_allPos (s : GameState) (bid : Nat) (h : AllPositive s) :
    AllPositive (buildingStep s bid) := by
  unfold buildingStep
  cases hf : s.buildings.find? (fun b => b.id == bid) with
  | none => exact h
  | some b =>
    dsimp only
    have hb2 := base_killcheck_pos b
    have hs1 := allPos_setBuilding s bid _ hb2 h
    split
    · exact hq_production_allPos _ _ hb2 hs1
    · exact turret_fire_allPos _ _ hb2 hs1
    all_goals exact hs1

/-- The whole building-update phase preserves the invariant. -/
theorem buildingsPhase_allPos (s : GameState) (h : AllPositive s) :
    AllPositive (buildingsPhase s) := by
  unfold buildingsPhase
  exact foldl_preserve buildingStep AllPositive
    (fun s a hp => buildingStep_allPos s a hp) _ s h

/-- Iron-field regeneration touches neither roster. -/
theorem fieldsPhase_allPos (s : GameState) (h : AllPositive s) :
    AllPositive (fieldsPhase s) :=
  allPos_of_eq rfl rfl h

/-- Projectile flight touches neither roster. -/
theorem projectilesPhase_allPos (s : GameState) (h : AllPositive s) :
    AllPositive (projectilesPhase s) :=
  allPos_of_eq rfl rfl h

/-- Pairwise collision pushes preserve the invariant. -/
theorem collidePush_allPos (s : GameState) (pr : Nat × Nat) (h : AllPositive s) :
    AllPositive (collidePush s pr) := by
  unfold collidePush
  dsimp only
  repeat' split
  all_goals
    first
      | exact h
      | exact allPos_mapUnit _ _ _ (fun w _ hw hr => hw hr)
          (allPos_mapUnit _ _ _ (fun w _ hw hr => hw hr) h)

theorem handle_collisions_allPos (s : GameState) (h : AllPositive s) :
    AllPositive (handle_collisions s) := by
  unfold handle_collisions
  exact foldl_preserve collidePush AllPositive
    (fun s a hp => collidePush_allPos s a hp) _ s h

/-- One attacker's action preserves the invariant. -/
theorem attackStep_allPos (s : GameState) (uid : Nat) (h : AllPositive s) :
    AllPositive (attackStep s uid) := by
  unfold attackStep
  dsimp only
  repeat' split
  all_goals
    first
      | exact h
      | exact allPos_mapUnit _ _ _ (fun w _ hw hr => hw hr)
          (allPos_mapUnit _ _ _ (fun w _ hw hr => hw hr) h)
      | exact allPos_mapUnit _ _ _ (fun w _ hw hr => hw hr)
          (allPos_hitEntity _ _ _ _
            (allPos_mapUnit _ _ _ (fun w _ hw hr => hw hr) h))
      | exact allPos_mapUnit _ _ _ (fun w _ hw hr => hw hr)
          (allPos_mapUnit _ _ _ (fun w _ hw hr => hw hr)
            (allPos_hitEntity _ _ _ _
              (allPos_mapUnit _ _ _ (fun w _ hw hr => hw hr) h)))

theorem handle_attacks_allPos (t : Team) (s : GameState) (h : AllPositive s) :
    AllPositive (handle_attacks t s) := by
  unfold handle_attacks
  exact foldl_preserve attackStep AllPositive
    (fun s a hp => attackStep_allPos s a hp) _ s h

/-- One projectile impact preserves the invariant. -/
theorem projImpactStep_allPos (s : GameState) (pid : Nat) (h : AllPositive s) :
    AllPositive (projImpactStep s pid) := by
  unfold projImpactStep
  dsimp only
  repeat' split
  all_goals
    first
      | exact h
      | exact allPos_of_eq rfl rfl (allPos_hitEntity _ _ _ _ h)

theorem handle_projectiles_allPos (s : GameState) (h : AllPositive s) :
    AllPositive (handle_projectiles s) := by
  unfold handle_projectiles
  exact foldl_preserve projImpactStep AllPositive
    (fun s a hp => projImpactStep_allPos s a hp) _ s h

/-- Scouting orders only retarget units. -/
theorem update_scouting_allPos (ai : AIState) (s : GameState) (team : Team)
    (h : AllPositive s) : AllPositive (update_scouting ai s team).2 := by
  unfold update_scouting
  split
  · dsimp only
    refine foldl_preserve _ (fun (pr : AIState × GameState) => AllPositive pr.2)
      ?_ _ _ h
    intro pr u hp
    dsimp only
    split
    · exact allPos_mapUnit _ _ _ (fun w _ hw hr => hw hr) hp
    · exact hp
  · exact h

theorem produceObj_allPos (s : GameState) (hqId : Nat) (item : ProdItem)
    (h : AllPositive s) : AllPositive (produceObj s hqId item) :=
  allPos_mapBuilding _ _ _ (fun b _ hb hr => hb hr) h

/-- Placing an AI building adds a fresh full-health record and rewrites the
headquarters' pending/timer fields. -/
theorem place_building_allPos (s : GameState) (hqId : Nat) (pos : Int × Int)
    (bk : BuildingKind) (h : AllPositive s) :
    AllPositive (place_building s hqId pos bk) := by
  unfold place_building
  cases hf : s.buildings.find? (fun b => b.id == hqId) with
  | none => exact h
  | some hq =>
    have hhq := h.2 hq (List.mem_of_find?_eq_some hf)
    dsimp only
    split
    · refine allPos_setBuilding _ _ _ hhq
        (@allPos_buildings_append s _ _ rfl rfl ?_ h)
      intro b hb
      rw [List.mem_singleton] at hb
      subst hb
      intro _
      exact mkBuilding_health_pos ..
    · exact h

/-- Case split on a state-valued `if`. -/
theorem allPos_ite (c : Prop) [Decidable c] {a b : GameState}
    (ha : AllPositive a) (hb : AllPositive b) : AllPositive (if c then a else b) := by
  split
  · exact ha
  · exact hb

/-- Case split on a pair-valued `if`, looking at the state component. -/
theorem allPos_ite2 (c : Prop) [Decidable c] {a b : AIState × GameState}
    (ha : AllPositive a.2) (hb : AllPositive b.2) :
    AllPositive (if c then a else b).2 := by
  split
  · exact ha
  · exact hb

/-- The AI production decision preserves the invariant. -/
theorem produce_objs_allPos (rng : Rng) (ai : AIState) (s : GameState)
    (hqId : Nat) (eh : Int) (h : AllPositive s) :
    AllPositive (produce_objs rng ai s hqId eh) := by
  unfold produce_objs
  cases hf : s.buildings.find? (fun b => b.id == hqId) with
  | none => exact h
  | some hq =>
    dsimp only
    have tail : ∀ (s1 : GameState), AllPositive s1 →
        AllPositive
          (match s1.buildings.find? (fun b => b.id == hqId) with
           | none => s1
           | some hq1 =>
             let s2 :=
               match hq1.queue with
               | item :: _ =>
                 if hq1.timer.isZero then
                   s1.setBuilding hqId
                     { hq1 with
                       timer :=
                         get_production_time (s.teamBuildings hq.team) item }
                 else s1
               | [] => s1
             match hq1.pendingBuilding, hq1.pendingPos with
             | some bk, none =>
               let pos := find_valid_building_position hq1 bk
                 (s.teamBuildings hq.team) (s.teamBuildings hq.team.enemy)
                 s2.fields
               let s3 := s2.mapBuilding hqId
                 (fun b => { b with pendingPos := some pos })
               place_building s3 hqId pos bk
             | _, _ => s2) := by
      intro s1 hs1
      split
      · exact hs1
      next hq1 heq =>
        have hhq1 := hs1.2 hq1 (List.mem_of_find?_eq_some heq)
        dsimp only
        split
        · refine place_building_allPos _ _ _ _
            (allPos_mapBuilding _ _ _ (fun b _ hb hr => hb hr) ?_)
          split
          · split
            · exact allPos_setBuilding _ _ _ hhq1 hs1
            · exact hs1
          · exact hs1
        all_goals
          split
          · split
            · exact allPos_setBuilding _ _ _ hhq1 hs1
            · exact hs1
          · exact hs1
    refine allPos_ite _ (produceObj_allPos _ _ _ h)
      (allPos_ite _ (produceObj_allPos _ _ _ h)
        (allPos_ite _ (produceObj_allPos _ _ _ h)
          (allPos_ite _ (produceObj_allPos _ _ _ h)
            (allPos_ite _ h ?_))))
    apply tail
    exact allPos_ite _
      (allPos_ite _ h (produceObj_allPos _ _ _ h))
      (allPos_ite _
        (allPos_ite _ h (produceObj_allPos _ _ _ h))
        (allPos_ite _ (produceObj_allPos _ _ _ h) h))


/-- A wave order only retargets units. -/
theorem coordinate_attack_allPos (rng : Rng) (sp : Bool) (ai : AIState)
    (s : GameState) (hq : Building) (h : AllPositive s) :
    AllPositive (coordinate_attack rng sp ai s hq).2 := by
  unfold coordinate_attack
  dsimp only
  repeat' split
  all_goals
    first
      | exact h
      | (refine foldl_preserve _ (fun (st : GameState × Nat) => AllPositive st.1)
            ?_ _ _ h
         intro st w hp
         exact allPos_mapUnit _ _ _ (fun u _ hu hr => hu hr) hp)

/-- The whole AI step preserves the invariant. -/
theorem ai_update_allPos (rng : Rng) (ai : AIState) (s : GameState)
    (h : AllPositive s) : AllPositive (ai_update rng ai s).2 := by
  unfold ai_update
  cases hf : s.buildings.find? (fun b => b.id == ai.hqId) with
  | none => exact h
  | some hq =>
    dsimp only
    refine allPos_ite2 _ ?_ (allPos_ite2 _ ?_ ?_)
    · exact coordinate_attack_allPos _ _ _ _ _
        (allPos_ite2 _
          (produce_objs_allPos _ _ _ _ _ (update_scouting_allPos _ _ _ h))
          (update_scouting_allPos _ _ _ h))
    · exact coordinate_attack_allPos _ _ _ _ _
        (allPos_ite2 _
          (produce_objs_allPos _ _ _ _ _ (update_scouting_allPos _ _ _ h))
          (update_scouting_allPos _ _ _ h))
    · exact allPos_ite2 _
        (produce_objs_allPos _ _ _ _ _ (update_scouting_allPos _ _ _ h))
        (update_scouting_allPos _ _ _ h)

/-- Marking explored AI buildings preserves the invariant. -/
theorem markExplored_allPos (fog : Fog) (s : GameState) (h : AllPositive s) :
    AllPositive (markExplored fog s) := by
  refine ⟨h.1, ?_⟩
  intro b hb hr
  simp only [markExplored, List.mem_map] at hb
  obtain ⟨w, hw, hweq⟩ := hb
  rw [← hweq] at hr ⊢
  revert hr
  split <;> exact h.2 w hw

/-- Clearing the transient flags preserves the invariant. -/
theorem clear_under_attack_allPos (s : GameState) (h : AllPositive s) :
    AllPositive (clear_under_attack s) := by
  refine ⟨?_, h.2⟩
  intro u hu hr
  simp only [clear_under_attack, List.mem_map] at hu
  obtain ⟨w, hw, hweq⟩ := hu
  rw [← hweq] at hr ⊢
  revert hr
  split <;> exact h.1 w hw

/-- C1: a full simulation tick preserves the health invariant — every unit and
building still in the active rosters after the tick has health strictly
greater than 0.  Each damage site (melee in `handle_attacks`, projectile
impacts in `handle_projectiles`, the zero-health check in `Building.update`)
removes the entity from the groups in the same step its health drops to or
below zero, and every other phase leaves roster health untouched, so no
subsystem observes a non-positive-health entity in a roster on the next
tick. -/
theorem c1_tick_preserves_positive_health (fog : Fog) (rng : Rng) (ai : AIState)
    (s : GameState) (out : GameState × AIState × Fog) (h : AllPositive s)
    (ht : tick fog rng ai s = some out) : AllPositive out.1 := by
  unfold tick at ht
  cases hu : unitsPhase s with
  | none =>
    rw [hu] at ht
    cases ht
  | some s1 =>
    rw [hu] at ht
    dsimp only at ht
    injection ht with ht
    rw [← ht]
    exact clear_under_attack_allPos _
      (markExplored_allPos _ _
        (ai_update_allPos _ _ _
          (handle_projectiles_allPos _
            (handle_attacks_allPos _ _
              (handle_attacks_allPos _ _
                (handle_collisions_allPos _
                  (projectilesPhase_allPos _
                    (buildingsPhase_allPos _
                      (fieldsPhase_allPos _
                        (unitsPhase_allPos s s1 hu h))))))))))

/-- C1 witness: the concrete two-headquarters state `c1s` satisfies the
invariant and so does the state produced by ticking it. -/
theorem c1_tick_preserves_positive_health_witness :
    AllPositive c1s ∧ AllPositive c1out.1 :=
  ⟨by decide,
   c1_tick_preserves_positive_health fogInit exRng exAI c1s c1out (by decide) rfl⟩

end CondaRTS
